import Mathlib

/-!
Verification of the geometry-dsl compiler: a shallow embedding of the
lexer, parser, typechecker, polygon geometry, AST-to-IR lowering, IR
evaluator and GLSL emitter, with theorems checking the specification's
claims against the code.

Source literals and all compile-time geometry arithmetic are embedded
over `ℚ` (Python floats on literal inputs); run-time field evaluation
and the irrational constants produced during lowering (normalized
normals, tangents, trigonometric samples) are embedded over `ℝ`.
-/

namespace GeomDSL

/-- AST node (`dsl_ast.py`): sum of `Number`, `Vec2`, `Vec3`, `Call`. -/
inductive Expr : Type
  | num (value : ℚ)
  | vec2 (x y : Expr)
  | vec3 (x y z : Expr)
  | call (name : String) (args : List Expr)
  deriving Repr

/-! ## Polygon geometry (`dsl_geom.py`) -/

/-- `orient` inside `seg_intersect`: cross product of `q - p` and `r - p`. -/
def orient (p q r : ℚ × ℚ) : ℚ :=
  (q.1 - p.1) * (r.2 - p.2) - (q.2 - p.2) * (r.1 - p.1)

/-- `on_segment` inside `seg_intersect`: `q` lies in the bounding box of `p, r`. -/
def onSegment (p q r : ℚ × ℚ) : Bool :=
  decide (min p.1 r.1 ≤ q.1 ∧ q.1 ≤ max p.1 r.1 ∧
          min p.2 r.2 ≤ q.2 ∧ q.2 ≤ max p.2 r.2)

/-- `seg_intersect(a, b, c, d)`: orientation tests with the on-segment
test for the collinear cases. -/
def segIntersect (a b c d : ℚ × ℚ) : Bool :=
  let o1 := orient a b c
  let o2 := orient a b d
  let o3 := orient c d a
  let o4 := orient c d b
  if o1 = 0 ∧ onSegment a c b then true
  else if o2 = 0 ∧ onSegment a d b then true
  else if o3 = 0 ∧ onSegment c a d then true
  else if o4 = 0 ∧ onSegment c b d then true
  else (decide (o1 > 0) != decide (o2 > 0)) && (decide (o3 > 0) != decide (o4 > 0))

/-- The q-th vertex of `poly`, cyclically (`poly[(i + 1) % n]`). -/
def vtx (poly : List (ℚ × ℚ)) (i : ℕ) : ℚ × ℚ :=
  poly.getD (i % poly.length) (0, 0)

/-- The double loop of `check_polygon_simple`, as a Bool: some pair of
non-adjacent edges `i < j` (skipping `j - i ≤ 1` and the wrap pair
`i = 0, j = n - 1`) intersects. -/
def hasSelfIntersection (poly : List (ℚ × ℚ)) : Bool :=
  let n := poly.length
  (List.range n).any fun i =>
    (List.range n).any fun j =>
      decide (i < j) && !(decide (j - i ≤ 1) || (decide (i = 0) && decide (j = n - 1))) &&
        segIntersect (vtx poly i) (vtx poly (i + 1)) (vtx poly j) (vtx poly (j + 1))

/-- `check_polygon_simple`: raises `ValueError("polygon is self-intersecting")`
when some pair of non-adjacent edges intersects. -/
def checkPolygonSimple (poly : List (ℚ × ℚ)) : Except String Unit :=
  if hasSelfIntersection poly then .error "polygon is self-intersecting" else .ok ()

/-- Inner loop of `is_convex`: `sign` accumulator over cross products of
consecutive edges, zeros skipped; disagreeing signs fail. -/
def isConvexAux (poly : List (ℚ × ℚ)) : List ℕ → Int → Bool
  | [], _ => true
  | i :: rest, sign =>
    let a := vtx poly i
    let b := vtx poly (i + 1)
    let c := vtx poly (i + 2)
    let cross := (b.1 - a.1) * (c.2 - b.2) - (b.2 - a.2) * (c.1 - b.1)
    if cross = 0 then isConvexAux poly rest sign
    else
      let cur : Int := if cross > 0 then 1 else -1
      if sign = 0 then isConvexAux poly rest cur
      else if sign ≠ cur then false
      else isConvexAux poly rest sign

/-- `is_convex(poly)`. -/
def isConvex (poly : List (ℚ × ℚ)) : Bool :=
  isConvexAux poly (List.range poly.length) 0

/-- Signed-area accumulator of `ensure_ccw`. -/
def signedAreaTwice (poly : List (ℚ × ℚ)) : ℚ :=
  ((List.range poly.length).map fun i =>
      (vtx poly i).1 * (vtx poly (i + 1)).2 - (vtx poly (i + 1)).1 * (vtx poly i).2).sum

/-- `ensure_ccw(poly)`: reverse the vertex order when the signed area is negative. -/
def ensureCcw (poly : List (ℚ × ℚ)) : List (ℚ × ℚ) :=
  if signedAreaTwice poly < 0 then poly.reverse else poly

/-! ## Typechecker (`dsl_typecheck.py`) -/

/-- The closed type enumeration of the typechecker. -/
inductive Ty : Type
  | f32 | vec2 | vec3 | field | poly2d | circle2d | path
  deriving Repr, DecidableEq

/-- `.name` of a type, as used in error messages. -/
def Ty.nm : Ty → String
  | .f32 => "f32"
  | .vec2 => "vec2"
  | .vec3 => "vec3"
  | .field => "field"
  | .poly2d => "poly2d"
  | .circle2d => "circle2d"
  | .path => "path"

/-- The `SIGS` table: the only entries present in `dsl_typecheck.py`
(`union`, `circle`, `polygon`, `line`, `polyline`, `extrude`, `sweep`
are special-cased in `type_of`; `helix` and `blend2D` appear nowhere). -/
def SIGS : String → Option (List Ty × Ty)
  | "sphere" => some ([.f32], .field)
  | "cylinder" => some ([.f32, .f32], .field)
  | "box" => some ([.vec3], .field)
  | "hex_nut" => some ([.f32, .f32, .f32], .field)
  | "difference" => some ([.field, .field], .field)
  | "rotate" => some ([.field, .vec3], .field)
  | "translate" => some ([.field, .vec3], .field)
  | "offset" => some ([.field, .f32], .field)
  | "vec2" => some ([.f32, .f32], .vec2)
  | "vec3" => some ([.f32, .f32, .f32], .vec3)
  | _ => none

mutual

/-- `type_of(expr)`: single pass computing the type, raising `TypeError`
messages as in the source. -/
def typeOf : Expr → Except String Ty
  | .num _ => .ok .f32
  | .vec3 x y z => do
    let tx ← typeOf x
    if tx ≠ .f32 then .error "vec3 components must be f32"
    else do
      let ty ← typeOf y
      if ty ≠ .f32 then .error "vec3 components must be f32"
      else do
        let tz ← typeOf z
        if tz ≠ .f32 then .error "vec3 components must be f32"
        else .ok .vec3
  | .vec2 x y => do
    let tx ← typeOf x
    if tx ≠ .f32 then .error "vec2 components must be f32"
    else do
      let ty ← typeOf y
      if ty ≠ .f32 then .error "vec2 components must be f32"
      else .ok .vec2
  | .call name args =>
    if name = "union" then
      if args.length < 2 then .error "union expects at least 2 args"
      else do
        let _ ← checkArgsAre args .field (fun idx got =>
          "union arg " ++ toString idx ++ " expects field, got " ++ got.nm) 0
        .ok .field
    else if name = "circle" then
      match args with
      | [a] => do
        let t ← typeOf a
        if t = .f32 then .ok .circle2d else .error "circle arg 0 expects f32"
      | _ => .error "circle expects 1 arg"
    else if name = "polygon" then
      if args.length < 3 then .error "polygon expects at least 3 args"
      else do
        let _ ← checkArgsAre args .vec2 (fun idx got =>
          "polygon arg " ++ toString idx ++ " expects vec2, got " ++ got.nm) 0
        .ok .poly2d
    else if name = "line" then
      match args with
      | [a, b] => do
        let _ ← checkArgsAre [a, b] .vec3 (fun idx got =>
          "line arg " ++ toString idx ++ " expects vec3, got " ++ got.nm) 0
        .ok .path
      | _ => .error "line expects 2 args"
    else if name = "polyline" then
      if args.length < 2 then .error "polyline expects at least 2 args"
      else do
        let _ ← checkArgsAre args .vec3 (fun idx got =>
          "polyline arg " ++ toString idx ++ " expects vec3, got " ++ got.nm) 0
        .ok .path
    else if name = "extrude" then
      match args with
      | [a, b] => do
        let shapeType ← typeOf a
        if shapeType = .poly2d ∨ shapeType = .circle2d then do
          let tb ← typeOf b
          if tb = .f32 then .ok .field else .error "extrude arg 1 expects f32"
        else .error ("extrude arg 0 expects poly2d or circle2d, got " ++ shapeType.nm)
      | _ => .error "extrude expects 2 args"
    else if name = "sweep" then
      match args with
      | [a, b] => do
        let profileType ← typeOf a
        if profileType = .poly2d ∨ profileType = .circle2d then do
          let tb ← typeOf b
          if tb = .path then .ok .field else .error "sweep arg 1 expects path"
        else .error ("sweep arg 0 expects poly2d or circle2d, got " ++ profileType.nm)
      | _ => .error "sweep expects 2 args"
    else
      match SIGS name with
      | none => .error ("Unknown function " ++ name)
      | some (expected, ret) =>
        if args.length ≠ expected.length then
          .error (name ++ " expects " ++ toString expected.length ++ " args")
        else do
          let _ ← checkArgsExpected name args expected 0
          .ok ret

/-- Helper for the homogeneous argument loops of `type_of`. -/
def checkArgsAre (args : List Expr) (want : Ty) (msg : ℕ → Ty → String)
    (idx : ℕ) : Except String Unit :=
  match args with
  | [] => .ok ()
  | a :: rest => do
    let got ← typeOf a
    if got = want then checkArgsAre rest want msg (idx + 1)
    else .error (msg idx got)

/-- Helper for the `SIGS`-driven argument loop of `type_of`. -/
def checkArgsExpected (name : String) (args : List Expr) (expected : List Ty)
    (idx : ℕ) : Except String Unit :=
  match args, expected with
  | a :: args', exp :: expected' => do
    let got ← typeOf a
    if got = exp then checkArgsExpected name args' expected' (idx + 1)
    else .error (name ++ " arg " ++ toString idx ++ " expects " ++ exp.nm ++
      ", got " ++ got.nm)
  | _, _ => .ok ()

end

/-! ## IR (`dsl_ir.py` node constructors, `dsl_interp_ir.py` evaluator,
`dsl_glsl_ir.py` emitter)

The Python IR is a tagged record `IR(op, args, type, value)`; the op
vocabulary is closed (§3 of the spec), so it is embedded as one
constructor per op tag.  Constant values are `ℝ` because lowering stores
normalized normals, tangents and trigonometric samples. -/

inductive IRN : Type
  | const (v : ℝ)
  | var
  | vec3 (x y z : IRN)
  | add (a b : IRN)
  | sub (a b : IRN)
  | neg (a : IRN)
  | mul (a b : IRN)
  | min (a b : IRN)
  | max (a b : IRN)
  | abs (a : IRN)
  | length (a : IRN)
  | sin (a : IRN)
  | cos (a : IRN)
  | atan2 (y x : IRN)
  | floor (a : IRN)
  | vec_add (a b : IRN)
  | vec_sub (a b : IRN)
  | vec_abs (a : IRN)
  | vec_max (a b : IRN)
  | vec_x (a : IRN)
  | vec_y (a : IRN)
  | vec_z (a : IRN)

/-- `ir_mul(a, b)` (`dsl_ir.py`). -/
def irMul (a b : IRN) : IRN := .mul a b

/-- `replace_var(node, name, repl)` (`dsl_ir.py`): deep rewrite replacing
every `var` node by `repl` (the stored `name` is ignored by the source,
`ir_var` discards it). -/
def replaceVar (node : IRN) (repl : IRN) : IRN :=
  match node with
  | .var => repl
  | .const v => .const v
  | .vec3 x y z => .vec3 (replaceVar x repl) (replaceVar y repl) (replaceVar z repl)
  | .add a b => .add (replaceVar a repl) (replaceVar b repl)
  | .sub a b => .sub (replaceVar a repl) (replaceVar b repl)
  | .neg a => .neg (replaceVar a repl)
  | .mul a b => .mul (replaceVar a repl) (replaceVar b repl)
  | .min a b => .min (replaceVar a repl) (replaceVar b repl)
  | .max a b => .max (replaceVar a repl) (replaceVar b repl)
  | .abs a => .abs (replaceVar a repl)
  | .length a => .length (replaceVar a repl)
  | .sin a => .sin (replaceVar a repl)
  | .cos a => .cos (replaceVar a repl)
  | .atan2 y x => .atan2 (replaceVar y repl) (replaceVar x repl)
  | .floor a => .floor (replaceVar a repl)
  | .vec_add a b => .vec_add (replaceVar a repl) (replaceVar b repl)
  | .vec_sub a b => .vec_sub (replaceVar a repl) (replaceVar b repl)
  | .vec_abs a => .vec_abs (replaceVar a repl)
  | .vec_max a b => .vec_max (replaceVar a repl) (replaceVar b repl)
  | .vec_x a => .vec_x (replaceVar a repl)
  | .vec_y a => .vec_y (replaceVar a repl)
  | .vec_z a => .vec_z (replaceVar a repl)

/-- Run-time value of the IR evaluator: a Python float or a 3-tuple. -/
inductive Val : Type
  | s (x : ℝ)
  | v (x y z : ℝ)

/-- Failure modes of `eval_ir`: `IREvalError("Unknown op …")` for an op
tag outside the dispatch table, or a Python `TypeError` from coercing a
tuple with `float()` / indexing a float. -/
inductive EvalErr : Type
  | unknownOp (op : String)
  | typeMismatch
  deriving Repr, DecidableEq

/-- `float(x)` applied to an evaluation result: floats pass, tuples raise. -/
def asF : Val → Except EvalErr ℝ
  | .s x => .ok x
  | .v _ _ _ => .error .typeMismatch

/-- Tuple indexing applied to an evaluation result: tuples pass, floats raise. -/
def asV : Val → Except EvalErr (ℝ × ℝ × ℝ)
  | .s _ => .error .typeMismatch
  | .v x y z => .ok (x, y, z)

/-- `(v[0]*v[0] + v[1]*v[1] + v[2]*v[2]) ** 0.5`, the evaluator's `length`. -/
noncomputable def len3 (x y z : ℝ) : ℝ := Real.sqrt (x * x + y * y + z * z)

/-- `eval_ir(node, env)` (`dsl_interp_ir.py`) with `env = {"p": p}`: the
dispatch covers `const, vec3, var, add, sub, neg, min, max, abs, length,
vec_add, vec_sub, vec_abs, vec_max, vec_x, vec_y, vec_z`; every other op
tag — including `mul`, `sin`, `cos`, `atan2`, `floor` — falls through to
`raise IREvalError(f"Unknown op {op}")`. -/
noncomputable def evalIR (node : IRN) (p : ℝ × ℝ × ℝ) : Except EvalErr Val :=
  match node with
  | .const v => .ok (.s v)
  | .vec3 x y z => do
    let vx ← asF (← evalIR x p)
    let vy ← asF (← evalIR y p)
    let vz ← asF (← evalIR z p)
    .ok (.v vx vy vz)
  | .var => .ok (.v p.1 p.2.1 p.2.2)
  | .add a b => do .ok (.s ((← asF (← evalIR a p)) + (← asF (← evalIR b p))))
  | .sub a b => do .ok (.s ((← asF (← evalIR a p)) - (← asF (← evalIR b p))))
  | .neg a => do .ok (.s (-(← asF (← evalIR a p))))
  | .min a b => do .ok (.s (Min.min (← asF (← evalIR a p)) (← asF (← evalIR b p))))
  | .max a b => do .ok (.s (Max.max (← asF (← evalIR a p)) (← asF (← evalIR b p))))
  | .abs a => do .ok (.s |(← asF (← evalIR a p))|)
  | .length a => do
    let (x, y, z) ← asV (← evalIR a p)
    .ok (.s (len3 x y z))
  | .vec_add a b => do
    let (ax, ay, az) ← asV (← evalIR a p)
    let (bx, by', bz) ← asV (← evalIR b p)
    .ok (.v (ax + bx) (ay + by') (az + bz))
  | .vec_sub a b => do
    let (ax, ay, az) ← asV (← evalIR a p)
    let (bx, by', bz) ← asV (← evalIR b p)
    .ok (.v (ax - bx) (ay - by') (az - bz))
  | .vec_abs a => do
    let (ax, ay, az) ← asV (← evalIR a p)
    .ok (.v |ax| |ay| |az|)
  | .vec_max a b => do
    let (ax, ay, az) ← asV (← evalIR a p)
    let (bx, by', bz) ← asV (← evalIR b p)
    .ok (.v (Max.max ax bx) (Max.max ay by') (Max.max az bz))
  | .vec_x a => do .ok (.s (← asV (← evalIR a p)).1)
  | .vec_y a => do .ok (.s (← asV (← evalIR a p)).2.1)
  | .vec_z a => do .ok (.s (← asV (← evalIR a p)).2.2)
  | .mul _ _ => .error (.unknownOp "mul")
  | .sin _ => .error (.unknownOp "sin")
  | .cos _ => .error (.unknownOp "cos")
  | .atan2 _ _ => .error (.unknownOp "atan2")
  | .floor _ => .error (.unknownOp "floor")

/-- `emit_expr(node)` (`dsl_glsl_ir.py`), parameterized by the float
formatter `_fmt_f` (its fractional rendering is Python `repr`, which no
claim depends on): the dispatch covers `const, vec3, var, add, sub, neg,
min, max, length, vec_add, vec_sub, vec_abs, vec_max, vec_x, vec_y,
vec_z`; every other op — including `mul`, `sin`, `cos`, `atan2`,
`floor` and scalar `abs` — falls through to
`raise ValueError(f"Unknown op {op}")`. -/
def emitExpr (fmt : ℝ → String) (node : IRN) : Except String String :=
  match node with
  | .const v => .ok (fmt v)
  | .vec3 x y z => do
    .ok ("vec3(" ++ (← emitExpr fmt x) ++ ", " ++ (← emitExpr fmt y) ++ ", " ++
      (← emitExpr fmt z) ++ ")")
  | .var => .ok "p"
  | .add a b => do .ok ("(" ++ (← emitExpr fmt a) ++ " + " ++ (← emitExpr fmt b) ++ ")")
  | .sub a b => do .ok ("(" ++ (← emitExpr fmt a) ++ " - " ++ (← emitExpr fmt b) ++ ")")
  | .neg a => do .ok ("(-" ++ (← emitExpr fmt a) ++ ")")
  | .min a b => do .ok ("min(" ++ (← emitExpr fmt a) ++ ", " ++ (← emitExpr fmt b) ++ ")")
  | .max a b => do .ok ("max(" ++ (← emitExpr fmt a) ++ ", " ++ (← emitExpr fmt b) ++ ")")
  | .length a => do .ok ("length(" ++ (← emitExpr fmt a) ++ ")")
  | .vec_add a b => do .ok ("(" ++ (← emitExpr fmt a) ++ " + " ++ (← emitExpr fmt b) ++ ")")
  | .vec_sub a b => do .ok ("(" ++ (← emitExpr fmt a) ++ " - " ++ (← emitExpr fmt b) ++ ")")
  | .vec_abs a => do .ok ("abs(" ++ (← emitExpr fmt a) ++ ")")
  | .vec_max a b => do .ok ("max(" ++ (← emitExpr fmt a) ++ ", " ++ (← emitExpr fmt b) ++ ")")
  | .vec_x a => do .ok ((← emitExpr fmt a) ++ ".x")
  | .vec_y a => do .ok ((← emitExpr fmt a) ++ ".y")
  | .vec_z a => do .ok ((← emitExpr fmt a) ++ ".z")
  | .mul _ _ => .error "Unknown op mul"
  | .abs _ => .error "Unknown op abs"
  | .sin _ => .error "Unknown op sin"
  | .cos _ => .error "Unknown op cos"
  | .atan2 _ _ => .error "Unknown op atan2"
  | .floor _ => .error "Unknown op floor"

/-- `emit_glsl(node)`: the single-function shader wrapper. -/
def emitGLSL (fmt : ℝ → String) (node : IRN) : Except String String := do
  .ok ("float sdf(vec3 p) \x7b\n    return " ++ (← emitExpr fmt node) ++ ";\n\x7d\n")

/-- Modelled from the spec: `atan2(y, x)` as used by §4.6's helix
recovery; the source relies on Python `math.atan2`, which is not part of
the repository. -/
noncomputable def atan2R (y x : ℝ) : ℝ :=
  if 0 < x then Real.arctan (y / x)
  else if x < 0 ∧ 0 ≤ y then Real.arctan (y / x) + Real.pi
  else if x < 0 ∧ y < 0 then Real.arctan (y / x) - Real.pi
  else if x = 0 ∧ 0 < y then Real.pi / 2
  else if x = 0 ∧ y < 0 then -(Real.pi / 2)
  else 0

/-- Modelled from the spec: §4.7 "a direct recursive interpreter mapping
each op tag to its arithmetic".  The evaluator in `src/dsl_interp_ir.py`
omits `mul`, `sin`, `cos`, `atan2`, `floor` (see the C1 theorem), so the
intended arithmetic of those tags exists only in the spec; this total
denotation supplies it and agrees with `evalIR` on every op the source
does handle. -/
noncomputable def denote (node : IRN) (p : ℝ × ℝ × ℝ) : Except EvalErr Val :=
  match node with
  | .const v => .ok (.s v)
  | .vec3 x y z => do
    let vx ← asF (← denote x p)
    let vy ← asF (← denote y p)
    let vz ← asF (← denote z p)
    .ok (.v vx vy vz)
  | .var => .ok (.v p.1 p.2.1 p.2.2)
  | .add a b => do .ok (.s ((← asF (← denote a p)) + (← asF (← denote b p))))
  | .sub a b => do .ok (.s ((← asF (← denote a p)) - (← asF (← denote b p))))
  | .neg a => do .ok (.s (-(← asF (← denote a p))))
  | .mul a b => do .ok (.s ((← asF (← denote a p)) * (← asF (← denote b p))))
  | .min a b => do .ok (.s (Min.min (← asF (← denote a p)) (← asF (← denote b p))))
  | .max a b => do .ok (.s (Max.max (← asF (← denote a p)) (← asF (← denote b p))))
  | .abs a => do .ok (.s |(← asF (← denote a p))|)
  | .length a => do
    let (x, y, z) ← asV (← denote a p)
    .ok (.s (len3 x y z))
  | .sin a => do .ok (.s (Real.sin (← asF (← denote a p))))
  | .cos a => do .ok (.s (Real.cos (← asF (← denote a p))))
  | .atan2 y x => do .ok (.s (atan2R (← asF (← denote y p)) (← asF (← denote x p))))
  | .floor a => do .ok (.s ⌊(← asF (← denote a p))⌋)
  | .vec_add a b => do
    let (ax, ay, az) ← asV (← denote a p)
    let (bx, by', bz) ← asV (← denote b p)
    .ok (.v (ax + bx) (ay + by') (az + bz))
  | .vec_sub a b => do
    let (ax, ay, az) ← asV (← denote a p)
    let (bx, by', bz) ← asV (← denote b p)
    .ok (.v (ax - bx) (ay - by') (az - bz))
  | .vec_abs a => do
    let (ax, ay, az) ← asV (← denote a p)
    .ok (.v |ax| |ay| |az|)
  | .vec_max a b => do
    let (ax, ay, az) ← asV (← denote a p)
    let (bx, by', bz) ← asV (← denote b p)
    .ok (.v (Max.max ax bx) (Max.max ay by') (Max.max az bz))
  | .vec_x a => do .ok (.s (← asV (← denote a p)).1)
  | .vec_y a => do .ok (.s (← asV (← denote a p)).2.1)
  | .vec_z a => do .ok (.s (← asV (← denote a p)).2.2)

/-! ## Lowering helpers (`dsl_ir.py`) -/

/-- `_extract_vec2(expr)`. -/
def extractVec2 : Expr → Except String (ℚ × ℚ)
  | .vec2 (.num x) (.num y) => .ok (x, y)
  | .vec2 _ _ => .error "vec2 components must be numeric constants"
  | _ => .error "polygon vertices must be vec2 constants"

/-- `_extract_vec3(expr)`. -/
def extractVec3 : Expr → Except String (ℚ × ℚ × ℚ)
  | .vec3 (.num x) (.num y) (.num z) => .ok (x, y, z)
  | .vec3 _ _ _ => .error "vec3 components must be numeric constants"
  | _ => .error "path points must be vec3 constants"

/-- `_extract_number(expr, label)`. -/
def extractNumber (e : Expr) (label : String) : Except String ℚ :=
  match e with
  | .num v => .ok v
  | _ => .error (label ++ " must be a numeric constant")

/-- The simplicity, convexity and orientation pipeline of
`_extract_polygon` applied to already-extracted vertices. -/
def checkAndOrient (vs : List (ℚ × ℚ)) : Except String (List (ℚ × ℚ)) := do
  let _ ← checkPolygonSimple vs
  if isConvex vs then .ok (ensureCcw vs) else .error "polygon must be convex"

/-- `_extract_polygon(expr)`. -/
def extractPolygon : Expr → Except String (List (ℚ × ℚ))
  | .call "polygon" args =>
    if args.length < 3 then .error "polygon expects at least 3 args"
    else do
      let vs ← args.mapM extractVec2
      checkAndOrient vs
  | _ => .error "extrude expects polygon(...) as first arg"

/-- `_extract_helix_params(expr)`. -/
def extractHelixParams (args : List Expr) : Except String (ℚ × ℚ × ℚ) :=
  match args with
  | [a0, a1, a2] => do
    let radius ← extractNumber a0 "helix arg 0"
    let pitch ← extractNumber a1 "helix arg 1"
    let turns ← extractNumber a2 "helix arg 2"
    .ok (radius, pitch, turns)
  | _ => .error "helix expects 3 args"

/-- The float literal `6.283185307179586` used for `2π` throughout the source. -/
def twoPi : ℚ := 6.283185307179586

/-- A 3D point with real coordinates. -/
abbrev V3 := ℝ × ℝ × ℝ

/-- `_extract_helix_polyline(expr)`: sample
`max(1, ceil(24 · max(turns, 0)))` segments of the helix. -/
noncomputable def extractHelixPolyline (args : List Expr) : Except String (List V3) := do
  let (radius, pitch, turns) ← extractHelixParams args
  let steps : ℕ := Nat.max 1 (Int.toNat ⌈(24 : ℚ) * max turns 0⌉)
  let totalAngle : ℚ := twoPi * turns
  let angleStep : ℚ := totalAngle / steps
  .ok <| (List.range (steps + 1)).map fun i =>
    let angle : ℚ := angleStep * i
    let y : ℚ := pitch * angle / twoPi
    (((radius : ℝ)) * Real.cos (angle : ℝ), (y : ℝ), ((radius : ℝ)) * Real.sin (angle : ℝ))

/-- `_extract_path(expr)`: literal `line`/`polyline` points, or the
sampled helix polyline. -/
noncomputable def extractPath : Expr → Except String (List V3)
  | .call "line" args =>
    match args with
    | [a, b] => do
      let (ax, ay, az) ← extractVec3 a
      let (bx, by', bz) ← extractVec3 b
      .ok [((ax : ℝ), (ay : ℝ), (az : ℝ)), ((bx : ℝ), (by' : ℝ), (bz : ℝ))]
    | _ => .error "line expects 2 args"
  | .call "polyline" args =>
    if args.length < 2 then .error "polyline expects at least 2 args"
    else do
      let pts ← args.mapM extractVec3
      .ok (pts.map fun (x, y, z) => ((x : ℝ), (y : ℝ), (z : ℝ)))
  | .call "helix" args => extractHelixPolyline args
  | _ => .error "sweep expects line(...), polyline(...), or helix(...) as second arg"

/-- `_hexagon_vertices(radius)` with `c = 0.8660254037844386`. -/
def hexagonVertices (radius : ℚ) : List (ℚ × ℚ) :=
  let c : ℚ := 0.8660254037844386
  [(radius, 0), (radius * (1/2), radius * c), (-radius * (1/2), radius * c),
   (-radius, 0), (-radius * (1/2), -radius * c), (radius * (1/2), -radius * c)]

/-- `_ir_polygon_sdf(poly, px, py)`: max over edge half-planes, skipping
zero-length edges; `ValueError("polygon has invalid edges")` when no edge
survives. -/
noncomputable def irPolygonSdf (poly : List (ℚ × ℚ)) (px py : IRN) : Except String IRN :=
  let step : Option IRN → ℕ → Option IRN := fun maxD i =>
    let (x1, y1) := vtx poly i
    let (x2, y2) := vtx poly (i + 1)
    let ex : ℝ := (x2 : ℝ) - (x1 : ℝ)
    let ey : ℝ := (y2 : ℝ) - (y1 : ℝ)
    let nx : ℝ := ey
    let ny : ℝ := -ex
    let nlen : ℝ := Real.sqrt (nx * nx + ny * ny)
    if nlen = 0 then maxD
    else
      let nx' := nx / nlen
      let ny' := ny / nlen
      let dx := IRN.sub px (.const x1)
      let dy := IRN.sub py (.const y1)
      let dot := IRN.add (irMul (.const nx') dx) (irMul (.const ny') dy)
      match maxD with
      | none => some dot
      | some m => some (.max m dot)
  match (List.range poly.length).foldl step none with
  | none => .error "polygon has invalid edges"
  | some m => .ok m

/-- `_ir_prism_sdf(poly, h, px, py, axis)`. -/
noncomputable def irPrismSdf (poly : List (ℚ × ℚ)) (h px py axis : IRN) :
    Except String IRN := do
  let maxD ← irPolygonSdf poly px py
  let dAxis := IRN.sub (.abs axis) h
  .ok (.max maxD dAxis)

/-- `_ir_dot3_const(vec, cx, cy, cz)`. -/
def irDot3Const (vec : IRN) (cx cy cz : ℝ) : IRN :=
  let vx := IRN.vec_x vec
  let vy := IRN.vec_y vec
  let vz := IRN.vec_z vec
  .add (.add (irMul (.const cx) vx) (irMul (.const cy) vy)) (irMul (.const cz) vz)

/-- `_ir_dot3(a, b, c, x, y, z)`. -/
def irDot3 (a b c x y z : IRN) : IRN :=
  .add (.add (irMul a x) (irMul b y)) (irMul c z)

/-- `_ir_clamp01(val)`. -/
def irClamp01 (val : IRN) : IRN :=
  .min (.max val (.const 0)) (.const 1)

/-- `_ir_blend_sdf(sdf1, sdf2, t)`: `(1 - t) * sdf1 + t * sdf2`. -/
def irBlendSdf (sdf1 sdf2 t : IRN) : IRN :=
  .add (irMul (.sub (.const 1) t) sdf1) (irMul t sdf2)

/-- `_ir_circle_sdf(radius, px, py)`. -/
def irCircleSdf (radius : ℝ) (px py : IRN) : IRN :=
  .sub (.length (.vec3 px py (.const 0))) (.const radius)

/-- `_ir_smin(a, b, k)`: for `k ≤ 0` a plain `min`; otherwise the cubic
polynomial smooth min `min(a,b) - (k/6)·h³` with
`h = max(k - |a - b|, 0) / k`, built as IR. -/
noncomputable def irSmin (a b : IRN) (k : ℝ) : IRN :=
  if k ≤ 0 then .min a b
  else
    let invK : ℝ := 1 / k
    let diff := IRN.sub a b
    let adiff := IRN.abs diff
    let hRaw := IRN.sub (.const k) adiff
    let h := irMul (.max hRaw (.const 0)) (.const invK)
    let h2 := irMul h h
    let h3 := irMul h2 h
    let smooth := irMul (.const (k * (1 / 6))) h3
    .sub (.min a b) smooth

/-- The accumulation step of the sweep's generic-path loop: a circle
profile joins adjacent segments with `_ir_smin` when the blending radius
is positive, otherwise a plain `min`. -/
noncomputable def sweepCombine (cur seg : IRN) (k : ℝ) : IRN :=
  if k > 0 then irSmin cur seg k else .min cur seg

/-! ## Lowering (`dsl_ir.py`, `lower` and its branch bodies) -/

/-- The `sphere` branch: `length(p) - r`. -/
def sphereLower (r : IRN) : IRN := .sub (.length .var) r

/-- The `cylinder` branch. -/
def cylinderLower (r h : IRN) : IRN :=
  let pAbs := IRN.vec_abs .var
  let y := IRN.vec_y pAbs
  let negY := IRN.neg y
  let absY := IRN.max y negY
  let dy := IRN.sub absY h
  let x := IRN.vec_x .var
  let z := IRN.vec_z .var
  let radial := IRN.length (.vec3 x (.const 0) z)
  let dx := IRN.sub radial r
  let inside := IRN.min (.max dx dy) (.const 0)
  let maxDx := IRN.max dx (.const 0)
  let maxDy := IRN.max dy (.const 0)
  let outD := IRN.length (.vec3 maxDx maxDy (.const 0))
  .add inside outD

/-- The `box` branch. -/
def boxLower (size : IRN) : IRN :=
  let q := IRN.vec_sub (.vec_abs .var) size
  let qmax := IRN.vec_max q (.vec3 (.const 0) (.const 0) (.const 0))
  let d1 := IRN.length qmax
  let qx := IRN.vec_x q
  let qy := IRN.vec_y q
  let qz := IRN.vec_z q
  let max1 := IRN.max qx qy
  let max2 := IRN.max max1 qz
  let d2 := IRN.min max2 (.const 0)
  .add d1 d2

/-- The `rotate` branch's transformed point: `Rz(-vz)·Ry(-vy)·Rx(-vx)`
applied to `p`, degrees to radians via the literal
`0.017453292519943295`. -/
def rotatedPoint (angles : IRN) : IRN :=
  let degToRad := IRN.const 0.017453292519943295
  let ax := irMul (.neg (.vec_x angles)) degToRad
  let ay := irMul (.neg (.vec_y angles)) degToRad
  let az := irMul (.neg (.vec_z angles)) degToRad
  let cx := IRN.cos ax
  let sx := IRN.sin ax
  let cy := IRN.cos ay
  let sy := IRN.sin ay
  let cz := IRN.cos az
  let sz := IRN.sin az
  let x0 := IRN.vec_x .var
  let y0 := IRN.vec_y .var
  let z0 := IRN.vec_z .var
  let y1 := IRN.sub (irMul y0 cx) (irMul z0 sx)
  let z1 := IRN.add (irMul y0 sx) (irMul z0 cx)
  let x1 := x0
  let x2 := IRN.add (irMul x1 cy) (irMul z1 sy)
  let z2 := IRN.add (irMul (.neg x1) sy) (irMul z1 cy)
  let y2 := y1
  let x3 := IRN.sub (irMul x2 cz) (irMul y2 sz)
  let y3 := IRN.add (irMul x2 sz) (irMul y2 cz)
  let z3 := z2
  .vec3 x3 y3 z3

/-- The `extrude` branch body (profile dispatch, after the height is lowered). -/
noncomputable def extrudeIR (profile : Expr) (h : IRN) : Except String IRN :=
  let px := IRN.vec_x .var
  let py := IRN.vec_y .var
  let pz := IRN.vec_z .var
  match profile with
  | .call "polygon" _ => do
    let poly ← extractPolygon profile
    irPrismSdf poly h px py pz
  | .call "circle" cargs =>
    match cargs with
    | [a] => do
      let r ← extractNumber a "circle arg 0"
      let radial := IRN.length (.vec3 px py (.const 0))
      let dx := IRN.sub radial (.const (r : ℝ))
      let dz := IRN.sub (.abs pz) h
      let inside := IRN.min (.max dx dz) (.const 0)
      let maxDx := IRN.max dx (.const 0)
      let maxDz := IRN.max dz (.const 0)
      let outD := IRN.length (.vec3 maxDx maxDz (.const 0))
      .ok (.add inside outD)
    | _ => .error "circle expects 1 arg"
  | _ => .error "extrude expects polygon(...) or circle(...) as first arg"

/-- The `hex_nut` branch: the source constructs
`difference(rotate(extrude(polygon(hex), half_h), vec3(90,0,0)), cylinder(ri, half_h+0.01))`
and recursively lowers it; here the recursive call is unfolded through
the branches it hits (`difference`, `rotate`, `extrude`-polygon,
`cylinder`), each taken from its own branch body above. -/
noncomputable def hexNutIR (ro ri hh : ℚ) : Except String IRN := do
  let poly := hexagonVertices ro
  let polyC ← checkAndOrient poly
  let prism ← irPrismSdf polyC (.const (hh : ℝ)) (.vec_x .var) (.vec_y .var) (.vec_z .var)
  let angles := IRN.vec3 (.const 90) (.const 0) (.const 0)
  let prismRot := replaceVar prism (rotatedPoint angles)
  let hole := cylinderLower (.const (ri : ℝ)) (.const ((hh + 1/100 : ℚ) : ℝ))
  .ok (.max prismRot (.neg hole))

/-- A compile-time sweep/blend profile: circle radius or polygon vertices. -/
inductive Profile2D : Type
  | circle (r : ℚ)
  | poly (vs : List (ℚ × ℚ))

/-- Profile extraction shared by `sweep` and `blend2D`
(`get_profile_data` and the inline checks of the `sweep` branch differ
only in the error strings). -/
def extractProfile (e : Expr) (circleLabel errMsg : String) :
    Except String Profile2D :=
  match e with
  | .call "polygon" _ => do .ok (.poly (← extractPolygon e))
  | .call "circle" cargs =>
    match cargs with
    | [a] => do .ok (.circle (← extractNumber a circleLabel))
    | _ => .error "circle expects 1 arg"
  | _ => .error errMsg

/-- A sweep segment: start point, edge vector, squared length, unit tangent. -/
structure SwSeg : Type where
  a : V3
  ab : V3
  len2 : ℝ
  t : V3

/-- The segment-collection loop of the sweep branch: consecutive path
points, zero-length segments dropped. -/
noncomputable def sweepSegments (path : List V3) : List SwSeg :=
  (path.zip path.tail).filterMap fun (pa, pb) =>
    let ab : V3 := (pb.1 - pa.1, pb.2.1 - pa.2.1, pb.2.2 - pa.2.2)
    let len2 : ℝ := ab.1 * ab.1 + ab.2.1 * ab.2.1 + ab.2.2 * ab.2.2
    if len2 = 0 then none
    else
      let tlen := Real.sqrt len2
      some ⟨pa, ab, len2, (ab.1 / tlen, ab.2.1 / tlen, ab.2.2 / tlen)⟩

/-- The `join_smooth` loop: for each adjacent pair of segments the
blending radius `k = r · max(0, (1 - t_prev·t_cur) / 2)`, the tangent dot
clamped to `[-1, 1]`. -/
noncomputable def joinSmooth (r : ℚ) (segs : List SwSeg) : List ℝ :=
  (segs.zip segs.tail).map fun (pSeg, cSeg) =>
    let dot := pSeg.t.1 * cSeg.t.1 + pSeg.t.2.1 * cSeg.t.2.1 + pSeg.t.2.2 * cSeg.t.2.2
    let dotC := max (-1 : ℝ) (min 1 dot)
    (r : ℝ) * max 0 ((1 - dotC) * 0.5)

/-- The local-frame computation shared verbatim by the sweep and blend2D
loops: reference up `(0,1,0)` (or `(1,0,0)` when `|t_y| > 0.999`),
`n = normalize(up × t)`, `b = t × n`; `none` when the cross product is
zero (the loop's `continue`). -/
noncomputable def frameOf (t : V3) : Option (V3 × V3) :=
  let up : V3 := if |t.2.1| > 0.999 then (1, 0, 0) else (0, 1, 0)
  let nx := up.2.1 * t.2.2 - up.2.2 * t.2.1
  let ny := up.2.2 * t.1 - up.1 * t.2.2
  let nz := up.1 * t.2.1 - up.2.1 * t.1
  let nlen := Real.sqrt (nx * nx + ny * ny + nz * nz)
  if nlen = 0 then none
  else
    let n : V3 := (nx / nlen, ny / nlen, nz / nlen)
    let b : V3 := (t.2.1 * n.2.2 - t.2.2 * n.2.1,
                   t.2.2 * n.1 - t.1 * n.2.2,
                   t.1 * n.2.1 - t.2.1 * n.1)
    some (n, b)

/-- The clamped-projection IR shared verbatim by the sweep and blend2D
loops: `t* = clamp((p-A)·AB · invL2, 0, 1)` and `q = p - (A + t*·AB)`. -/
def segClampedQ (a ab : V3) (invL2 : ℝ) : IRN × IRN :=
  let aVec := IRN.vec3 (.const a.1) (.const a.2.1) (.const a.2.2)
  let pa := IRN.vec_sub .var aVec
  let dotPaAb := irDot3Const pa ab.1 ab.2.1 ab.2.2
  let tRaw := irMul dotPaAb (.const invL2)
  let tCl := irClamp01 tRaw
  let abScaled := IRN.vec3 (irMul (.const ab.1) tCl) (irMul (.const ab.2.1) tCl)
    (irMul (.const ab.2.2) tCl)
  let c := IRN.vec_add aVec abScaled
  let q := IRN.vec_sub .var c
  (tCl, q)

/-- The generic-path (`line`/`polyline`) sweep: per-segment capped
profile SDFs combined with `min`, or — circle profile — non-endpoint
segments as full 3D tubes joined by `sweepCombine` with the
`joinSmooth` radii.  The source returns `None` (crashing its caller)
when every segment frame degenerates; that unreachable case is an error
here. -/
noncomputable def sweepGenericIR (prof : Profile2D) (path : List V3) :
    Except String IRN := do
  let segs := sweepSegments path
  if segs.isEmpty then .error "sweep path has no valid segments"
  else
    let useRound : Bool := match prof with | .circle _ => true | .poly _ => false
    let ks := match prof with | .circle r => joinSmooth r segs | .poly _ => []
    let lastIdx := segs.length - 1
    let res ← segs.enum.foldlM (fun cur (idx, sg) => do
      match frameOf sg.t with
      | none => pure cur
      | some (n, b) =>
        let invLen2 : ℝ := 1 / sg.len2
        let (_, q) := segClampedQ sg.a sg.ab invLen2
        let px := irDot3Const q n.1 n.2.1 n.2.2
        let py := irDot3Const q b.1 b.2.1 b.2.2
        let qt := irDot3Const q sg.t.1 sg.t.2.1 sg.t.2.2
        let segIR ← match prof with
          | .circle r =>
            if useRound && (idx != 0) && (idx != lastIdx) then
              pure (IRN.sub (.length (.vec3 px py qt)) (.const (r : ℝ)))
            else
              pure (IRN.max (.sub (.length (.vec3 px py (.const 0))) (.const (r : ℝ)))
                (.abs qt))
          | .poly vs => do
            let pd ← irPolygonSdf vs px py
            pure (IRN.max pd (.abs qt))
        match cur with
        | none => pure (some segIR)
        | some c =>
          if useRound then
            let k := ks.getD (idx - 1) 0
            pure (some (sweepCombine c segIR k))
          else pure (some (.min c segIR))) none
    match res with
    | some ir => .ok ir
    | none => .error "sweep produced no segment IR"

/-- The analytic helix sweep branch. -/
noncomputable def sweepHelixIR (prof : Profile2D) (hargs : List Expr) :
    Except String IRN := do
  let (radius, pitch, turns) ← extractHelixParams hargs
  let h : ℚ := pitch / twoPi
  let totalAngle : ℚ := twoPi * max turns 0
  let pX := IRN.vec_x .var
  let pY := IRN.vec_y .var
  let pZ := IRN.vec_z .var
  let angle := IRN.atan2 pZ pX
  let angleDiv := irMul angle (.const ((1 / twoPi : ℚ) : ℝ))
  let angleMod := IRN.sub angle (irMul (.const (twoPi : ℝ)) (.floor angleDiv))
  let yOverH := if h ≠ 0 then irMul pY (.const ((1 / h : ℚ) : ℝ)) else IRN.const 0
  let kNum := IRN.sub yOverH angleMod
  let kDiv := irMul kNum (.const ((1 / twoPi : ℚ) : ℝ))
  let k := IRN.floor (.add kDiv (.const 0.5))
  let t0 := IRN.add angleMod (irMul (.const (twoPi : ℝ)) k)
  let t := if totalAngle > 0 then IRN.min (.max t0 (.const 0)) (.const (totalAngle : ℝ))
    else t0
  let sinT := IRN.sin t
  let cosT := IRN.cos t
  let hx := irMul (.const (radius : ℝ)) cosT
  let hz := irMul (.const (radius : ℝ)) sinT
  let hy := irMul (.const (h : ℝ)) t
  let helixPos := IRN.vec3 hx hy hz
  let q := IRN.vec_sub .var helixPos
  let d ← match prof with
    | .circle r => pure (IRN.sub (.length q) (.const (r : ℝ)))
    | .poly vs => do
      let tlen : ℝ := Real.sqrt ((radius : ℝ) * (radius : ℝ) + (h : ℝ) * (h : ℝ))
      let invTlen : ℝ := if tlen > 0 then 1 / tlen else 0
      let nX := cosT
      let nY := IRN.const 0
      let nZ := sinT
      let tX := irMul (.const (-(radius : ℝ) * invTlen)) sinT
      let tY := IRN.const ((h : ℝ) * invTlen)
      let tZ := irMul (.const ((radius : ℝ) * invTlen)) cosT
      let bX := irMul tY nZ
      let bY := IRN.sub (irMul tZ nX) (irMul tX nZ)
      let bZ := irMul (.neg tY) nX
      let qx := IRN.vec_x q
      let qy := IRN.vec_y q
      let qz := IRN.vec_z q
      let px := irDot3 qx qy qz nX nY nZ
      let py := irDot3 qx qy qz bX bY bZ
      let qt := irDot3 qx qy qz tX tY tZ
      let pd ← irPolygonSdf vs px py
      pure (IRN.max pd (.abs qt))
  if totalAngle > 0 then
    let dCap := IRN.max (.neg pY) (.sub pY (.const ((h * totalAngle : ℚ) : ℝ)))
    .ok (.max d dCap)
  else .ok d

/-- A blend2D segment: start point, edge vector, length, cumulative
length before it. -/
structure BSeg : Type where
  a : V3
  ab : V3
  segLen : ℝ
  cum : ℝ

/-- The segment-collection loop of the blend2D branch: zero-length
segments dropped, cumulative arc length threaded through. -/
noncomputable def blendSegments (path : List V3) : List BSeg × ℝ :=
  (path.zip path.tail).foldl (fun (acc, total) (pa, pb) =>
    let ab : V3 := (pb.1 - pa.1, pb.2.1 - pa.2.1, pb.2.2 - pa.2.2)
    let segLen := Real.sqrt (ab.1 * ab.1 + ab.2.1 * ab.2.1 + ab.2.2 * ab.2.2)
    if segLen = 0 then (acc, total)
    else (acc ++ [⟨pa, ab, segLen, total⟩], total + segLen)) ([], 0)

/-- The per-profile 2D SDF used inside the blend2D loop. -/
noncomputable def profileSdfIR (prof : Profile2D) (px py : IRN) : Except String IRN :=
  match prof with
  | .circle r => .ok (irCircleSdf (r : ℝ) px py)
  | .poly vs => irPolygonSdf vs px py

/-- The `blend2D` branch after profile and path extraction: per segment
the two profile SDFs mixed linearly by the global arc-length parameter,
capped by `|q·t|`, all segments combined with `min`.  As in the sweep,
the source returns `None` when every frame degenerates; error here. -/
noncomputable def blend2DIR (prof1 prof2 : Profile2D) (path : List V3) :
    Except String IRN := do
  if path.length < 2 then .error "blend2D path must have at least 2 points"
  else
    let (segs, totalLength) := blendSegments path
    if segs.isEmpty then .error "blend2D path has no valid segments"
    else if totalLength = 0 then .error "blend2D path has zero length"
    else
      let invTotalLength : ℝ := 1 / totalLength
      let res ← segs.foldlM (fun cur sg => do
        let t : V3 := (sg.ab.1 / sg.segLen, sg.ab.2.1 / sg.segLen, sg.ab.2.2 / sg.segLen)
        match frameOf t with
        | none => pure cur
        | some (n, b) =>
          let segLenSq := sg.segLen * sg.segLen
          let (tCl, q) := segClampedQ sg.a sg.ab (1 / segLenSq)
          let px := irDot3Const q n.1 n.2.1 n.2.2
          let py := irDot3Const q b.1 b.2.1 b.2.2
          let qt := irDot3Const q t.1 t.2.1 t.2.2
          let tOffset := irMul tCl (.const sg.segLen)
          let tGlobal := irMul (.add (.const sg.cum) tOffset) (.const invTotalLength)
          let sdf1 ← profileSdfIR prof1 px py
          let sdf2 ← profileSdfIR prof2 px py
          let blended := irBlendSdf sdf1 sdf2 tGlobal
          let segIR := IRN.max blended (.abs qt)
          match cur with
          | none => pure (some segIR)
          | some c => pure (some (.min c segIR))) none
      match res with
      | some ir => .ok ir
      | none => .error "blend2D produced no segment IR"

/-- `lower(expr)` (`dsl_ir.py`): AST to IR, with the branch bodies above;
the branch order and error strings follow the source (`list index out of
range` stands for Python's `IndexError` on a missing positional
argument, extra arguments being ignored just as `args[i]` ignores them).
The fuel argument only bounds the recursion depth that Python gets for
free; `lowerE` below supplies more fuel than any expression can consume,
so the out-of-fuel error is unreachable.  The `union` branch lowers all
arguments left to right and folds `min` over them, as the source's
`cur = min(cur, lower(arg))` loop does. -/
noncomputable def lowerF : ℕ → Expr → Except String IRN
  | 0, _ => .error "lower out of fuel"
  | fuel + 1, e =>
    match e with
    | .num v => .ok (.const (v : ℝ))
    | .vec3 x y z => do
      .ok (.vec3 (← lowerF fuel x) (← lowerF fuel y) (← lowerF fuel z))
    | .vec2 _ _ => .error "Unknown expression"
    | .call name args =>
      if name = "sphere" then
        match args with
        | a :: _ => do .ok (sphereLower (← lowerF fuel a))
        | [] => .error "list index out of range"
      else if name = "circle" then .error "circle must be used with sweep or extrude"
      else if name = "cylinder" then
        match args with
        | a :: b :: _ => do .ok (cylinderLower (← lowerF fuel a) (← lowerF fuel b))
        | _ => .error "list index out of range"
      else if name = "box" then
        match args with
        | a :: _ => do .ok (boxLower (← lowerF fuel a))
        | [] => .error "list index out of range"
      else if name = "union" then
        if args.length < 2 then .error "union expects at least 2 args"
        else do
          let irs ← args.mapM (lowerF fuel)
          match irs with
          | first :: rest => .ok (rest.foldl (fun cur x => .min cur x) first)
          | [] => .error "union expects at least 2 args"
      else if name = "difference" then
        match args with
        | a :: b :: _ => do .ok (.max (← lowerF fuel a) (.neg (← lowerF fuel b)))
        | _ => .error "list index out of range"
      else if name = "polygon" then .error "polygon must be used with extrude"
      else if name = "line" ∨ name = "polyline" then .error "path must be used with sweep"
      else if name = "extrude" then
        match args with
        | profile :: hE :: _ => do
          let h ← lowerF fuel hE
          extrudeIR profile h
        | _ => .error "list index out of range"
      else if name = "hex_nut" then
        match args with
        | [a0, a1, a2] => do
          let ro ← extractNumber a0 "hex_nut arg 0"
          let ri ← extractNumber a1 "hex_nut arg 1"
          let hh ← extractNumber a2 "hex_nut arg 2"
          hexNutIR ro ri hh
        | _ => .error "hex_nut expects 3 args"
      else if name = "blend2D" then
        match args with
        | [p1, p2, pe] => do
          let prof1 ← extractProfile p1 "circle radius"
            "blend2D expects polygon(...) or circle(...) profiles"
          let prof2 ← extractProfile p2 "circle radius"
            "blend2D expects polygon(...) or circle(...) profiles"
          let path ← extractPath pe
          blend2DIR prof1 prof2 path
        | _ => .error "blend2D expects 3 args: profile1, profile2, path"
      else if name = "sweep" then
        match args with
        | [profile, pathExpr] => do
          let prof ← extractProfile profile "circle arg 0"
            "sweep expects polygon(...) or circle(...) as first arg"
          match pathExpr with
          | .call "helix" hargs => sweepHelixIR prof hargs
          | _ => do
            let path ← extractPath pathExpr
            if path.length < 2 then .error "sweep path must have at least 2 points"
            else sweepGenericIR prof path
        | _ => .error "sweep expects 2 args"
      else if name = "rotate" then
        match args with
        | a :: b :: _ => do
          let g ← lowerF fuel a
          let angles ← lowerF fuel b
          .ok (replaceVar g (rotatedPoint angles))
        | _ => .error "list index out of range"
      else if name = "translate" then
        match args with
        | a :: b :: _ => do
          let g ← lowerF fuel a
          let v ← lowerF fuel b
          .ok (replaceVar g (.vec_sub .var v))
        | _ => .error "list index out of range"
      else if name = "offset" then
        match args with
        | a :: b :: _ => do .ok (.sub (← lowerF fuel a) (← lowerF fuel b))
        | _ => .error "list index out of range"
      else if name = "vec3" then
        match args with
        | a :: b :: c :: _ => do
          .ok (.vec3 (← lowerF fuel a) (← lowerF fuel b) (← lowerF fuel c))
        | _ => .error "list index out of range"
      else .error "Unknown expression"

mutual

/-- Fuel bound for `lowerF`: strictly exceeds the expression depth. -/
def exprFuel : Expr → ℕ
  | .num _ => 1
  | .vec2 x y => exprFuel x + exprFuel y + 1
  | .vec3 x y z => exprFuel x + exprFuel y + exprFuel z + 1
  | .call _ args => exprFuelList args + 1

/-- Sum of the fuel bounds of a list of expressions. -/
def exprFuelList : List Expr → ℕ
  | [] => 0
  | e :: rest => exprFuel e + exprFuelList rest

end

/-- `lower(expr)` at adequate fuel: `exprFuel` strictly exceeds the
expression depth, so every recursive call of the source is replayed. -/
noncomputable def lowerE (e : Expr) : Except String IRN :=
  lowerF (exprFuel e) e

/-! ## Lexer (`dsl_lexer.py`) -/

/-- `Token(kind, lexeme, value, line, col)`. -/
structure Token : Type where
  kind : String
  lexeme : String
  value : Option ℚ
  line : ℕ
  col : ℕ
  deriving Repr, DecidableEq

/-- The two `LexerError` sites: `Invalid number …` in `_number` and
`Unexpected character …` in `tokenize` (`outOfFuel` is model-only: it
marks exhaustion of the fuel bounding the tokenize loop and is
unreachable at the fuel `tokenize` supplies). -/
inductive LexError : Type
  | invalidNumber (lex : String) (line col : ℕ)
  | unexpectedChar (c : Char) (line col : ℕ)
  | outOfFuel
  deriving Repr, DecidableEq

/-- The `LexerError` message string, as raised by the source. -/
def LexError.message : LexError → String
  | .invalidNumber lex line col =>
    "Invalid number " ++ lex ++ " at " ++ toString line ++ ":" ++ toString col
  | .unexpectedChar c line col =>
    "Unexpected character " ++ String.mk [c] ++ " at " ++ toString line ++ ":" ++
      toString col
  | .outOfFuel => "lexer out of fuel"

/-- The whitespace set of `_skip_whitespace_and_comments`. -/
def isWs (c : Char) : Bool := c = ' ' || c = '\t' || c = '\r' || c = '\n'

/-- Modelled from the spec: the lexer classifies characters with the
Python built-in `str.isdigit` (not part of the repository), which is
true not only for the ASCII digits but also for every character with
the Unicode property `Numeric_Type=Digit` — the superscript digits
`¹ ² ³` (`U+00B9`, `U+00B2`, `U+00B3`), `⁰` and `⁴`–`⁹` (`U+2070`,
`U+2074`–`U+2079`) and the subscript digits `₀`–`₉`
(`U+2080`–`U+2089`).  This predicate holds those beyond-ASCII
digit-property characters.  Decimal digits of non-Latin scripts
(Unicode category `Nd`) also satisfy `isdigit`, but Python's `float`
parses them successfully, so they cannot reach the `Invalid number`
error site and lie outside the modelled alphabet. -/
def pyDigitExtra (c : Char) : Bool :=
  decide (c.toNat = 0xB2 ∨ c.toNat = 0xB3 ∨ c.toNat = 0xB9 ∨ c.toNat = 0x2070 ∨
    (0x2074 ≤ c.toNat ∧ c.toNat ≤ 0x2079) ∨ (0x2080 ≤ c.toNat ∧ c.toNat ≤ 0x2089))

/-- Python `str.isdigit` on the modelled alphabet: the ASCII digits
plus the digit-property characters of `pyDigitExtra`. -/
def pyIsDigit (c : Char) : Bool := c.isDigit || pyDigitExtra c

/-- Python `str.isalnum` (the loop test of `_ident`) on the modelled
alphabet: ASCII letters and digits plus the digit-property characters,
which Python counts as alphanumeric. -/
def pyIsAlnum (c : Char) : Bool := c.isAlphanum || pyDigitExtra c

/-- `_skip_whitespace_and_comments`: whitespace advances (newlines reset
the column), a `#` consumes the rest of the line.  The fuel bounds the
loop that Python runs freely; callers supply more fuel than there are
characters, so exhaustion (which returns the state unchanged) is
unreachable. -/
def skipWs : ℕ → List Char → ℕ → ℕ → List Char × ℕ × ℕ
  | 0, cs, line, col => (cs, line, col)
  | _ + 1, [], line, col => ([], line, col)
  | fuel + 1, c :: rest, line, col =>
    if isWs c then
      if c = '\n' then skipWs fuel rest (line + 1) 1
      else skipWs fuel rest line (col + 1)
    else if c = '#' then
      let cmt := rest.takeWhile (fun ch => ch ≠ '\n')
      skipWs fuel (rest.drop cmt.length) line (col + 1 + cmt.length)
    else (c :: rest, line, col)

/-- The consuming loop of `_number`: `isdigit` characters, plus at most
one dot. -/
def takeNumber : List Char → Bool → List Char × List Char
  | [], _ => ([], [])
  | c :: rest, sawDot =>
    if pyIsDigit c then
      let (ds, rest') := takeNumber rest sawDot
      (c :: ds, rest')
    else if c = '.' ∧ sawDot = false then
      let (ds, rest') := takeNumber rest true
      (c :: ds, rest')
    else ([], c :: rest)

/-- The consuming loop of `_ident`: `isalnum` characters and
underscores. -/
def takeIdent : List Char → List Char × List Char
  | [] => ([], [])
  | c :: rest =>
    if pyIsAlnum c || c = '_' then
      let (ds, rest') := takeIdent rest
      (c :: ds, rest')
    else ([], c :: rest)

/-- Decimal value of a digit string. -/
def digitsVal (cs : List Char) : ℚ :=
  cs.foldl (fun acc c => acc * 10 + ((c.toNat - '0'.toNat : ℕ) : ℚ)) 0

/-- Decimal value of a fraction-digit string (`d₁d₂… ↦ 0.d₁d₂…`). -/
def fracVal (cs : List Char) : ℚ :=
  cs.foldr (fun c acc => (acc + ((c.toNat - '0'.toNat : ℕ) : ℚ)) / 10) 0

/-- Modelled from the spec: §4.1 fails "on a malformed numeric lexeme"
via Python `float(lex)`, which is not part of the repository.  On a
lexeme drawn from the lexer's number alphabet (`isdigit` characters and
at most one dot) `float` succeeds exactly when an ASCII digit is
present and no digit-property character such as `²` is (`float`
rejects those, though `isdigit` accepts them), with the standard
decimal value. -/
def floatOfLex (cs : List Char) : Option ℚ :=
  if cs.any Char.isDigit && !cs.any pyDigitExtra then
    let intPart := cs.takeWhile (fun c => c ≠ '.')
    let fracPart := (cs.dropWhile (fun c => c ≠ '.')).drop 1
    some (digitsVal intPart + fracVal fracPart)
  else none

/-- `Lexer.tokenize`, looping over `skipWs` and the token recognizers;
`_number` is inlined (its `float(lex)` call is `floatOfLex`).  The fuel
bounds the loop; every iteration consumes at least one character, and
`tokenize` supplies `length + 1`, so the out-of-fuel case is
unreachable. -/
def tokenizeAux : ℕ → List Char → ℕ → ℕ → Except LexError (List Token)
  | 0, _, _, _ => .error .outOfFuel
  | fuel + 1, cs, line, col =>
    match skipWs (cs.length + 1) cs line col with
    | (cs1, line1, col1) =>
      match cs1 with
      | [] => .ok [⟨"EOF", "", none, line1, col1⟩]
      | c :: rest =>
        if pyIsDigit c ||
            (c = '.' && (match rest with | r :: _ => pyIsDigit r | [] => false)) then
          match takeNumber (c :: rest) false with
          | (ds, rest') =>
            match floatOfLex ds with
            | none => .error (.invalidNumber (String.mk ds) line1 col1)
            | some v => do
              let toks ← tokenizeAux fuel rest' line1 (col1 + ds.length)
              .ok (⟨"NUMBER", String.mk ds, some v, line1, col1⟩ :: toks)
        else if (c.isAlpha || c = '_') = true then
          match takeIdent (c :: rest) with
          | (ds, rest') => do
            let toks ← tokenizeAux fuel rest' line1 (col1 + ds.length)
            .ok (⟨"IDENT", String.mk ds, none, line1, col1⟩ :: toks)
        else if c = '(' then do
          let toks ← tokenizeAux fuel rest line1 (col1 + 1)
          .ok (⟨"LPAREN", "(", none, line1, col1⟩ :: toks)
        else if c = ')' then do
          let toks ← tokenizeAux fuel rest line1 (col1 + 1)
          .ok (⟨"RPAREN", ")", none, line1, col1⟩ :: toks)
        else if c = ',' then do
          let toks ← tokenizeAux fuel rest line1 (col1 + 1)
          .ok (⟨"COMMA", ",", none, line1, col1⟩ :: toks)
        else .error (.unexpectedChar c line1 col1)

/-- `Lexer(src).tokenize()`: start at line 1, column 1, with enough fuel
for the whole source. -/
def tokenize (src : String) : Except LexError (List Token) :=
  tokenizeAux (src.length + 1) src.data 1 1

/-! ## Parser (`dsl_parser.py`)

Recursive descent over the token list.  The Python recursion terminates
because every call consumes a token; here a fuel argument plays that
role (`parse` supplies more fuel than there are tokens, so the
fuel-exhaustion error is unreachable, as is the empty-token-list error:
`tokenize` always ends the stream with an `EOF` token that is never
consumed). -/

/-- `Parser._expect(kind)`'s error message. -/
def expectMsg (kind : String) (tok : Token) : String :=
  "Expected " ++ kind ++ " at " ++ toString tok.line ++ ":" ++ toString tok.col ++
    ", got " ++ tok.kind

mutual

/-- `Parser.parse_expr()`. -/
def parseExprF : ℕ → List Token → Except String (Expr × List Token)
  | 0, _ => .error "parser out of fuel"
  | _ + 1, [] => .error "no tokens"
  | fuel + 1, tok :: rest =>
    if tok.kind = "NUMBER" then .ok (.num (tok.value.getD 0), rest)
    else if tok.kind = "IDENT" then
      match rest with
      | [] => .error "no tokens"
      | lp :: rest2 =>
        if lp.kind = "LPAREN" then do
          let (args, rest3) ← parseArgsF fuel rest2
          match rest3 with
          | [] => .error "no tokens"
          | rp :: rest4 =>
            if rp.kind = "RPAREN" then
              if tok.lexeme = "vec3" then
                match args with
                | [a, b, c] => .ok (.vec3 a b c, rest4)
                | _ => .error "vec3 expects 3 arguments"
              else if tok.lexeme = "vec2" then
                match args with
                | [a, b] => .ok (.vec2 a b, rest4)
                | _ => .error "vec2 expects 2 arguments"
              else .ok (.call tok.lexeme args, rest4)
            else .error (expectMsg "RPAREN" rp)
        else .error (expectMsg "LPAREN" lp)
    else .error ("Unexpected token " ++ tok.kind ++ " at " ++ toString tok.line ++
      ":" ++ toString tok.col)

/-- The argument list of `parse_expr`: empty when `RPAREN` is next,
otherwise the `while True` loop below (a trailing comma is not accepted:
after a comma another expression is parsed). -/
def parseArgsF : ℕ → List Token → Except String (List Expr × List Token)
  | 0, _ => .error "parser out of fuel"
  | _ + 1, [] => .error "no tokens"
  | fuel + 1, tok :: rest =>
    if tok.kind = "RPAREN" then .ok ([], tok :: rest)
    else parseArgsLoopF fuel (tok :: rest)

/-- The `while True` argument loop: parse an expression, continue past a
comma, stop otherwise. -/
def parseArgsLoopF : ℕ → List Token → Except String (List Expr × List Token)
  | 0, _ => .error "parser out of fuel"
  | fuel + 1, toks => do
    let (e, rest2) ← parseExprF fuel toks
    match rest2 with
    | comma :: rest3 =>
      if comma.kind = "COMMA" then do
        let (es, rest4) ← parseArgsLoopF fuel rest3
        .ok (e :: es, rest4)
      else .ok ([e], rest2)
    | [] => .ok ([e], rest2)

end

/-- `Parser.parse()`: the root expression followed by `EOF`. -/
def parseToks (toks : List Token) : Except String Expr := do
  let (e, rest) ← parseExprF (toks.length + 1) toks
  match rest with
  | [] => .error "no tokens"
  | tok :: _ =>
    if tok.kind = "EOF" then .ok e
    else .error ("Unexpected token " ++ tok.kind ++ " at " ++ toString tok.line ++
      ":" ++ toString tok.col)

/-- `Parser.from_source(src).parse()`. -/
def parseSrc (src : String) : Except String Expr := do
  match tokenize src with
  | .error e => .error e.message
  | .ok toks => parseToks toks

/-- `_compile(code)` (`server.py`): parse, lower, emit — the typechecker
is never invoked. -/
noncomputable def compileSrc (fmt : ℝ → String) (src : String) : Except String String := do
  let ast ← parseSrc src
  let ir ← lowerE ast
  emitGLSL fmt ir

/-! ## Concrete programs and predicates used by the claim theorems -/

/-- `rotate(sphere(1), vec3(90, 0, 0))`: a well-typed source program. -/
def rotateSphereAst : Expr :=
  .call "rotate" [.call "sphere" [.num 1], .vec3 (.num 90) (.num 0) (.num 0)]

/-- Its lowering: the sphere body with `p` replaced by the rotated point. -/
noncomputable def rotateSphereIR : IRN :=
  replaceVar (sphereLower (.const ((1 : ℚ) : ℝ)))
    (rotatedPoint (.vec3 (.const ((90 : ℚ) : ℝ)) (.const ((0 : ℚ) : ℝ))
      (.const ((0 : ℚ) : ℝ))))

/-- `sphere(vec3(1,1,1))`: parses, is ill-typed (`sphere` wants `f32`),
yet lowers. -/
def illTypedAst : Expr := .call "sphere" [.vec3 (.num 1) (.num 1) (.num 1)]

/-- The source text of `illTypedAst`. -/
def illTypedSrc : String := "sphere(vec3(1,1,1))"

/-- Lowering of `illTypedAst`: the sphere body with a vector where its
radius belongs — the type tags are never checked. -/
noncomputable def illTypedIR : IRN :=
  sphereLower (.vec3 (.const ((1 : ℚ) : ℝ)) (.const ((1 : ℚ) : ℝ)) (.const ((1 : ℚ) : ℝ)))

/-- A concrete float formatter for closed statements about the emitter. -/
def fmtUnit : ℝ → String := fun _ => "0.0"

/-- `sphere(1)`, the concrete field used by the C7 and C8 witnesses. -/
def sphere1Ast : Expr := .call "sphere" [.num 1]

/-- Lowering of `sphere(1)`. -/
noncomputable def sphere1IR : IRN := sphereLower (.const ((1 : ℚ) : ℝ))

/-- `extrude(polygon(vs...), h)` as a literal AST. -/
def extrudePolyAst (vs : List (ℚ × ℚ)) (h : ℚ) : Expr :=
  .call "extrude" [.call "polygon" (vs.map fun v => .vec2 (.num v.1) (.num v.2)), .num h]

/-- The claim's simplicity violation: some pair of edges `i < j` with
`|i - j| > 1`, not the wrap pair `(0, n-1)`, intersects (orientation
test with the on-segment test for collinear cases, via `segIntersect`). -/
def SelfIntersecting (vs : List (ℚ × ℚ)) : Prop :=
  ∃ i j, i < j ∧ j < vs.length ∧ 1 < j - i ∧ ¬(i = 0 ∧ j = vs.length - 1) ∧
    segIntersect (vtx vs i) (vtx vs (i + 1)) (vtx vs j) (vtx vs (j + 1)) = true


/-! ## Infrastructure lemmas -/

instance {ε α : Type} [DecidableEq ε] [DecidableEq α] : DecidableEq (Except ε α)
  | .ok a, .ok b =>
    if h : a = b then .isTrue (by rw [h])
    else .isFalse (by intro hc; cases hc; exact h rfl)
  | .ok _, .error _ => .isFalse (by intro hc; cases hc)
  | .error _, .ok _ => .isFalse (by intro hc; cases hc)
  | .error e, .error f =>
    if h : e = f then .isTrue (by rw [h])
    else .isFalse (by intro hc; cases hc; exact h rfl)

@[simp] theorem bind_ok {α β ε : Type} (a : α) (f : α → Except ε β) :
    (Except.ok a >>= f) = f a := rfl

@[simp] theorem bind_error {α β ε : Type} (e : ε) (f : α → Except ε β) :
    ((Except.error e : Except ε α) >>= f) = .error e := rfl

@[simp] theorem except_bind_ok {α β ε : Type} (a : α) (f : α → Except ε β) :
    (Except.ok a).bind f = f a := rfl

@[simp] theorem except_bind_error {α β ε : Type} (e : ε) (f : α → Except ε β) :
    (Except.error e : Except ε α).bind f = .error e := rfl

/-- Substitution commutes with evaluation: replacing every `var` node by
an expression that evaluates to the vector `q` evaluates the original
tree at `q`.  This is the semantic content of `replace_var`, which
`rotate` and `translate` rely on. -/
theorem evalIR_replaceVar (n : IRN) (r : IRN) (p : V3) (q1 q2 q3 : ℝ)
    (h : evalIR r p = .ok (.v q1 q2 q3)) :
    evalIR (replaceVar n r) p = evalIR n (q1, q2, q3) := by
  induction n with
  | const v => simp [replaceVar, evalIR]
  | var => simp [replaceVar, evalIR, h]
  | vec3 x y z ihx ihy ihz => simp [replaceVar, evalIR, ihx, ihy, ihz]
  | add a b iha ihb => simp [replaceVar, evalIR, iha, ihb]
  | sub a b iha ihb => simp [replaceVar, evalIR, iha, ihb]
  | neg a iha => simp [replaceVar, evalIR, iha]
  | mul a b iha ihb => simp [replaceVar, evalIR]
  | min a b iha ihb => simp [replaceVar, evalIR, iha, ihb]
  | max a b iha ihb => simp [replaceVar, evalIR, iha, ihb]
  | abs a iha => simp [replaceVar, evalIR, iha]
  | length a iha => simp [replaceVar, evalIR, iha]
  | sin a iha => simp [replaceVar, evalIR]
  | cos a iha => simp [replaceVar, evalIR]
  | atan2 y x ihy ihx => simp [replaceVar, evalIR]
  | floor a iha => simp [replaceVar, evalIR]
  | vec_add a b iha ihb => simp [replaceVar, evalIR, iha, ihb]
  | vec_sub a b iha ihb => simp [replaceVar, evalIR, iha, ihb]
  | vec_abs a iha => simp [replaceVar, evalIR, iha]
  | vec_max a b iha ihb => simp [replaceVar, evalIR, iha, ihb]
  | vec_x a iha => simp [replaceVar, evalIR, iha]
  | vec_y a iha => simp [replaceVar, evalIR, iha]
  | vec_z a iha => simp [replaceVar, evalIR, iha]

/-! ## Claim theorems -/

/-- C1: the claim states that evaluating the lowered IR of a valid
program never raises `IREvalError` because the evaluator maps every op
tag lowering can produce — including `mul`, `sin`, `cos`, `atan2`,
`floor` — to its arithmetic.  The code refutes it: `eval_ir` has no
branch for those five tags, so the well-typed program
`rotate(sphere(1), vec3(90,0,0))` lowers successfully and then
evaluation at `(0,0,0)` raises `IREvalError("Unknown op mul")`. -/
theorem c1_ireval_unknown_mul :
    typeOf rotateSphereAst = .ok .field ∧
    lowerE rotateSphereAst = .ok rotateSphereIR ∧
    evalIR rotateSphereIR (0, 0, 0) = .error (.unknownOp "mul") :=
  ⟨rfl, rfl, rfl⟩

/-- C2: the claim states that `emit_glsl` succeeds on every IR tree over
the documented vocabulary, printing `min, max, length, sin, cos, atan2,
floor, abs` functionally.  The code refutes it: `emit_expr` has no
branch for `mul`, `sin`, `cos`, `atan2`, `floor` or scalar `abs`, so the
emitter raises `ValueError("Unknown op …")` on trees containing them. -/
theorem c2_emit_unknown_ops : ∀ fmt : ℝ → String,
    emitExpr fmt (.mul (.const 1) (.const 2)) = .error "Unknown op mul" ∧
    emitExpr fmt (.abs (.const 1)) = .error "Unknown op abs" ∧
    emitExpr fmt (.sin (.const 1)) = .error "Unknown op sin" ∧
    emitExpr fmt (.cos (.const 1)) = .error "Unknown op cos" ∧
    emitExpr fmt (.atan2 (.const 1) (.const 2)) = .error "Unknown op atan2" ∧
    emitExpr fmt (.floor (.const 1)) = .error "Unknown op floor" ∧
    emitGLSL fmt (.mul (.const 1) (.const 2)) = .error "Unknown op mul" :=
  fun _ => ⟨rfl, rfl, rfl, rfl, rfl, rfl, rfl⟩

/-- C4 counterexample: the claim states that every source whose AST
fails the typechecker is rejected with a type error before lowering.
The code refutes it: `_compile` never invokes `type_of`, so
`sphere(vec3(1,1,1))` — which the typechecker rejects — parses, lowers
and compiles to GLSL successfully. -/
theorem c4_compile_no_typecheck_cex :
    parseSrc illTypedSrc = .ok illTypedAst ∧
    typeOf illTypedAst = .error "sphere arg 0 expects f32, got vec3" ∧
    (compileSrc fmtUnit illTypedSrc).isOk = true := by
  refine ⟨by with_unfolding_all rfl, rfl, ?_⟩
  have hp : parseSrc illTypedSrc = .ok illTypedAst := by with_unfolding_all rfl
  simp [compileSrc, hp]
  with_unfolding_all rfl

/-- C4 amended: the compilation entry point performs no type check at
all — for every source, once parsing and lowering succeed the GLSL is
emitted, whether or not the AST typechecks. -/
theorem c4_compile_lowers_without_typecheck (fmt : ℝ → String) (src : String)
    (ast : Expr) (ir : IRN) (hp : parseSrc src = .ok ast)
    (hl : lowerE ast = .ok ir) :
    compileSrc fmt src = emitGLSL fmt ir := by
  simp [compileSrc, hp, hl]

/-- C4 witness: the amended theorem applied to the ill-typed program. -/
theorem c4_compile_lowers_without_typecheck_witness :
    compileSrc fmtUnit illTypedSrc = emitGLSL fmtUnit illTypedIR :=
  c4_compile_lowers_without_typecheck fmtUnit illTypedSrc illTypedAst illTypedIR
    (by with_unfolding_all rfl) (by rfl)

/-- C5: lowering `cylinder(r, h)` yields the documented SDF: at every
point, `length((max(d_r,0), max(d_y,0), 0)) + min(max(d_r,d_y), 0)` with
`d_y = |p_y| - h` and `d_r = length((p_x,0,p_z)) - r`; in particular
`cylinder(1, 0.5)` gives `-0.5` at the origin, `0.5` at `(0,1,0)` and
`0` at `(1,0,0)`. -/
theorem c5_cylinder_sdf :
    (∀ (r h : ℚ) (px py pz : ℝ),
      lowerE (.call "cylinder" [.num r, .num h]) =
        .ok (cylinderLower (.const (r : ℝ)) (.const (h : ℝ))) ∧
      evalIR (cylinderLower (.const (r : ℝ)) (.const (h : ℝ))) (px, py, pz) =
        .ok (.s (len3 (max (len3 px 0 pz - r) 0) (max (|py| - h) 0) 0 +
          min (max (len3 px 0 pz - r) (|py| - h)) 0))) ∧
    evalIR (cylinderLower (.const ((1 : ℚ) : ℝ)) (.const ((1/2 : ℚ) : ℝ)))
      (0, 0, 0) = .ok (.s (-(1/2))) ∧
    evalIR (cylinderLower (.const ((1 : ℚ) : ℝ)) (.const ((1/2 : ℚ) : ℝ)))
      (0, 1, 0) = .ok (.s (1/2)) ∧
    evalIR (cylinderLower (.const ((1 : ℚ) : ℝ)) (.const ((1/2 : ℚ) : ℝ)))
      (1, 0, 0) = .ok (.s 0) := by
  refine ⟨fun r h px py pz => ⟨rfl, ?_⟩, ?_, ?_, ?_⟩
  · simp [evalIR, cylinderLower, asF, asV]
    ring
  · simp [evalIR, cylinderLower, asF, asV, len3]
    norm_num [Real.sqrt_zero]
  · simp [evalIR, cylinderLower, asF, asV, len3]
    norm_num
  · simp [evalIR, cylinderLower, asF, asV, len3]

/-- C6 counterexample: the claim states that the sweep's smooth min
subtracts the quadratic term `(k/4)·h²` from `min(a,b)`.  The code
refutes it: `_ir_smin` builds the cubic `min(a,b) - (k/6)·h³`, so at
`a = 0`, `b = 1/2`, `k = 1` the combined distance is `-1/48`, not the
`-1/16` the quadratic formula gives. -/
theorem c6_smin_not_quadratic_cex :
    denote (sweepCombine (.const 0) (.const (1/2)) 1) (0, 0, 0) =
      .ok (.s (-(1/48))) ∧
    (-(1/48) : ℝ) ≠
      min (0 : ℝ) (1/2) - 1/4 * (max (1 - |(0 : ℝ) - 1/2|) 0 / 1) ^ 2 := by
  constructor
  · rw [sweepCombine, if_pos (by norm_num : (0 : ℝ) < 1), irSmin,
      if_neg (by norm_num : ¬(1 : ℝ) ≤ 0)]
    simp [denote, asF, irMul]
    rw [show |(2 : ℝ)⁻¹| = 2⁻¹ from abs_of_pos (by norm_num)]
    norm_num
  · rw [show |(0 : ℝ) - 1/2| = 1/2 by rw [abs_sub_comm]; norm_num]
    norm_num

/-- C6 amended: when a circle-profile sweep joins two adjacent segments
with blending radius `k > 0`, the combined distance is the cubic
polynomial smooth min `min(a,b) - (k/6)·h³` with
`h = max(k - |a-b|, 0) / k` (the `k` itself is
`r · max(0, (1 - t_prev·t_cur)/2)`, built by `joinSmooth`, and the first
and last segments keep the hard cap `|q·t|`, as the claim states). -/
theorem c6_sweep_smin_cubic (a b : IRN) (k : ℝ) (p : V3) (x y : ℝ)
    (ha : denote a p = .ok (.s x)) (hb : denote b p = .ok (.s y))
    (hk : 0 < k) :
    denote (sweepCombine a b k) p =
      .ok (.s (min x y - k / 6 * (max (k - |x - y|) 0 / k) ^ 3)) := by
  rw [sweepCombine, if_pos hk, irSmin, if_neg (not_le.mpr hk)]
  simp [denote, asF, irMul, ha, hb]
  ring

/-- C6 witness: the cubic smooth-min formula at `a = 0`, `b = 1/2`,
`k = 1`. -/
theorem c6_sweep_smin_cubic_witness :
    denote (sweepCombine (.const 0) (.const (1/2)) 1) (0, 0, 0) =
      .ok (.s (min (0 : ℝ) (1/2) - 1 / 6 * (max (1 - |(0 : ℝ) - 1/2|) 0 / 1) ^ 3)) :=
  c6_sweep_smin_cubic (.const 0) (.const (1/2)) 1 (0, 0, 0) 0 (1/2) rfl rfl
    (by norm_num)

/-- The `translate` branch of `lower` in one step: lower the field and
the vector, then substitute `p - v` for `p`. -/
theorem lowerF_translate (fuel : ℕ) (g v : Expr) :
    lowerF (fuel + 1) (.call "translate" [g, v]) =
      (lowerF fuel g).bind fun gir =>
        (lowerF fuel v).bind fun vir =>
          .ok (replaceVar gir (.vec_sub .var vir)) := rfl

/-- The `difference` branch of `lower` in one step: `max(a, -b)`. -/
theorem lowerF_difference (fuel : ℕ) (a b : Expr) :
    lowerF (fuel + 1) (.call "difference" [a, b]) =
      (lowerF fuel a).bind fun ia =>
        (lowerF fuel b).bind fun ib =>
          .ok (.max ia (.neg ib)) := rfl

/-- Lowering a literal vector yields the literal `vec3` IR. -/
theorem lowerF_vec3_lit (fuel : ℕ) (a b c : ℚ) :
    lowerF (fuel + 2) (.vec3 (.num a) (.num b) (.num c)) =
      .ok (.vec3 (.const (a : ℝ)) (.const (b : ℝ)) (.const (c : ℝ))) := rfl

/-- C7: translation round-trip — for every well-typed field expression
`g` that lowers (at any replayed recursion depth) and every literal
vector `v`, the lowering of `translate(g, v)` evaluated at `p + v`
yields exactly the value of the lowering of `g` at `p`, whenever the
latter evaluates. -/
theorem c7_translate_roundtrip (g : Expr) (fuel : ℕ) (gir : IRN)
    (va vb vc : ℚ) (px py pz : ℝ) (val : Val)
    (hty : typeOf g = .ok .field)
    (hlow : lowerF (fuel + 2) g = .ok gir)
    (heval : evalIR gir (px, py, pz) = .ok val) :
    lowerF (fuel + 3) (.call "translate" [g, .vec3 (.num va) (.num vb) (.num vc)]) =
      .ok (replaceVar gir (.vec_sub .var
        (.vec3 (.const (va : ℝ)) (.const (vb : ℝ)) (.const (vc : ℝ))))) ∧
    evalIR (replaceVar gir (.vec_sub .var
        (.vec3 (.const (va : ℝ)) (.const (vb : ℝ)) (.const (vc : ℝ)))))
      (px + va, py + vb, pz + vc) = .ok val := by
  constructor
  · rw [show fuel + 3 = (fuel + 2) + 1 by ring, lowerF_translate, hlow,
      lowerF_vec3_lit]
    rfl
  · have hshift : evalIR (.vec_sub .var
        (.vec3 (.const (va : ℝ)) (.const (vb : ℝ)) (.const (vc : ℝ))))
        (px + va, py + vb, pz + vc) = .ok (.v px py pz) := by
      simp [evalIR, asV, asF]
    rw [evalIR_replaceVar gir _ _ px py pz hshift]
    exact heval

/-- C7 witness: `translate(sphere(1), vec3(1,0,0))` evaluated at
`(0,0,0) + (1,0,0)` equals `sphere(1)` at `(0,0,0)`, namely `-1`. -/
theorem c7_translate_roundtrip_witness :
    lowerF 3 (.call "translate" [sphere1Ast, .vec3 (.num 1) (.num 0) (.num 0)]) =
      .ok (replaceVar sphere1IR (.vec_sub .var
        (.vec3 (.const ((1 : ℚ) : ℝ)) (.const ((0 : ℚ) : ℝ)) (.const ((0 : ℚ) : ℝ))))) ∧
    evalIR (replaceVar sphere1IR (.vec_sub .var
        (.vec3 (.const ((1 : ℚ) : ℝ)) (.const ((0 : ℚ) : ℝ)) (.const ((0 : ℚ) : ℝ)))))
      ((0 : ℝ) + (1 : ℚ), (0 : ℝ) + (0 : ℚ), (0 : ℝ) + (0 : ℚ)) = .ok (.s (-1)) :=
  c7_translate_roundtrip sphere1Ast 0 sphere1IR 1 0 0 0 0 0 (.s (-1)) rfl rfl
    (by simp [sphere1IR, sphereLower, evalIR, asF, asV, len3])

/-- C8: self-difference is non-negative — for every well-typed field
expression `a` that lowers (at any replayed recursion depth) and every
point `p` where its lowering evaluates to `d`, the lowering of
`difference(a, a)` evaluates to `max(d, -d) = |d| ≥ 0`. -/
theorem c8_self_difference_nonneg (a : Expr) (fuel : ℕ) (ia : IRN)
    (p : V3) (d : ℝ)
    (hty : typeOf a = .ok .field)
    (hlow : lowerF (fuel + 1) a = .ok ia)
    (heval : evalIR ia p = .ok (.s d)) :
    lowerF (fuel + 2) (.call "difference" [a, a]) = .ok (.max ia (.neg ia)) ∧
    evalIR (.max ia (.neg ia)) p = .ok (.s |d|) ∧ 0 ≤ |d| := by
  refine ⟨?_, ?_, abs_nonneg d⟩
  · rw [show fuel + 2 = (fuel + 1) + 1 by ring, lowerF_difference, hlow]
    rfl
  · simp [evalIR, asF, heval]
    rw [abs_eq_max_neg]

/-- C8 witness: `difference(sphere(1), sphere(1))` at the origin
evaluates to `|-1| = 1 ≥ 0`. -/
theorem c8_self_difference_nonneg_witness :
    lowerF 3 (.call "difference" [sphere1Ast, sphere1Ast]) =
      .ok (.max sphere1IR (.neg sphere1IR)) ∧
    evalIR (.max sphere1IR (.neg sphere1IR)) (0, 0, 0) = .ok (.s |(-1 : ℝ)|) ∧
    0 ≤ |(-1 : ℝ)| :=
  c8_self_difference_nonneg sphere1Ast 1 sphere1IR (0, 0, 0) (-1) rfl rfl
    (by simp [sphere1IR, sphereLower, evalIR, asF, asV, len3])

/-- C3: the claim states that the typechecker accepts exactly the names
of the signature table, in particular `helix : (f32, f32, f32) → path`
and `blend2D : (profile, profile, path) → field`.  The code refutes it:
`type_of` has no case and no `SIGS` entry for either name, so both fail
with an unknown-function error although the parser, the lowering and the
repository's own tests support them. -/
theorem c3_typecheck_missing_helix_blend2d :
    typeOf (.call "helix" [.num 1, .num 2, .num 3]) =
      .error "Unknown function helix" ∧
    typeOf (.call "blend2D" [.call "circle" [.num 1], .call "circle" [.num 1],
      .call "line" [.vec3 (.num 0) (.num 0) (.num 0),
        .vec3 (.num 0) (.num 5) (.num 0)]]) =
      .error "Unknown function blend2D" :=
  ⟨rfl, rfl⟩

/-- The `extrude` branch of `lower` in one step. -/
theorem lowerF_extrude (fuel : ℕ) (profile hE : Expr) :
    lowerF (fuel + 1) (.call "extrude" [profile, hE]) =
      (lowerF fuel hE).bind fun h => extrudeIR profile h := rfl

/-- The polygon case of the `extrude` branch in one step. -/
theorem extrudeIR_polygon (args : List Expr) (h : IRN) :
    extrudeIR (.call "polygon" args) h =
      (extractPolygon (.call "polygon" args)).bind fun poly =>
        irPrismSdf poly h (.vec_x .var) (.vec_y .var) (.vec_z .var) := rfl

/-- `_extract_polygon` on a polygon call, one step. -/
theorem extractPolygon_call (args : List Expr) :
    extractPolygon (.call "polygon" args) =
      if args.length < 3 then .error "polygon expects at least 3 args"
      else (args.mapM extractVec2).bind checkAndOrient := by
  rw [extractPolygon]
  split_ifs with hlen
  · rfl
  · rfl

theorem mapM_loop_extractVec2 (vs : List (ℚ × ℚ)) (acc : List (ℚ × ℚ)) :
    List.mapM.loop extractVec2 (vs.map fun v => Expr.vec2 (.num v.1) (.num v.2)) acc =
      .ok (acc.reverse ++ vs) := by
  induction vs generalizing acc with
  | nil =>
    simp [List.mapM.loop]
    rfl
  | cons v rest ih =>
    simp [List.mapM.loop, extractVec2, ih]

/-- Extracting the vertices of a literal polygon call recovers them. -/
theorem mapM_extractVec2 (vs : List (ℚ × ℚ)) :
    (vs.map fun v => Expr.vec2 (.num v.1) (.num v.2)).mapM extractVec2 = .ok vs := by
  rw [List.mapM]
  simpa using mapM_loop_extractVec2 vs []

/-- The double loop of `check_polygon_simple` finds an intersecting pair
exactly when the claim's simplicity condition is violated. -/
theorem hasSelfIntersection_iff (vs : List (ℚ × ℚ)) :
    hasSelfIntersection vs = true ↔ SelfIntersecting vs := by
  rw [hasSelfIntersection, SelfIntersecting]
  simp only [List.any_eq_true, List.mem_range, Bool.and_eq_true, Bool.not_eq_true',
    Bool.or_eq_false_iff, Bool.and_eq_false_iff, decide_eq_true_eq, decide_eq_false_iff_not]
  constructor
  · rintro ⟨i, hi, j, hj, ⟨⟨hij, hskip⟩, hseg⟩⟩
    refine ⟨i, j, hij, hj, ?_, ?_, hseg⟩
    · omega
    · rcases hskip.2 with h | h
      · intro hc; exact h hc.1
      · intro hc; exact h hc.2
  · rintro ⟨i, j, hij, hj, hgap, hwrap, hseg⟩
    refine ⟨i, by omega, j, hj, ⟨⟨hij, ⟨by omega, ?_⟩⟩, hseg⟩⟩
    by_cases hi0 : i = 0
    · right; intro hc; exact hwrap ⟨hi0, hc⟩
    · left; exact hi0

/-- `_ir_polygon_sdf` either fails with its invalid-edges error or
returns an IR tree. -/
theorem irPolygonSdf_cases (poly : List (ℚ × ℚ)) (px py : IRN) :
    irPolygonSdf poly px py = .error "polygon has invalid edges" ∨
    ∃ m, irPolygonSdf poly px py = .ok m := by
  rw [irPolygonSdf]
  split
  · exact Or.inl rfl
  · exact Or.inr ⟨_, rfl⟩

/-- C9: lowering `extrude` of a literal polygon (at any replayed
recursion depth) fails with exactly the message
"polygon is self-intersecting" precisely when some pair of non-adjacent
edges intersects, as the claim describes: the simplicity check runs
before the convexity check, and no other lowering error shares that
message. -/
theorem c9_extrude_self_intersecting (fuel : ℕ) (vs : List (ℚ × ℚ)) (h : ℚ) :
    lowerF (fuel + 2) (extrudePolyAst vs h) = .error "polygon is self-intersecting" ↔
      SelfIntersecting vs := by
  rw [extrudePolyAst, show fuel + 2 = (fuel + 1) + 1 by ring, lowerF_extrude,
    show lowerF (fuel + 1) (.num h) = .ok (.const (h : ℝ)) from rfl,
    except_bind_ok, extrudeIR_polygon, extractPolygon_call]
  simp only [List.length_map]
  by_cases hlen : vs.length < 3
  · rw [if_pos hlen]
    simp only [except_bind_error]
    constructor
    · intro hc
      simp only [Except.error.injEq] at hc
      exact absurd hc (by decide)
    · rintro ⟨i, j, hij, hj, hgap, -, -⟩
      omega
  · rw [if_neg hlen, mapM_extractVec2, except_bind_ok, checkAndOrient]
    by_cases hsi : hasSelfIntersection vs = true
    · rw [checkPolygonSimple, if_pos hsi]
      simp [(hasSelfIntersection_iff vs).mp hsi]
    · rw [checkPolygonSimple, if_neg hsi]
      simp only [bind_ok, except_bind_ok]
      constructor
      · intro hc
        exfalso
        by_cases hcv : isConvex vs = true
        · rw [if_pos hcv] at hc
          simp only [except_bind_ok] at hc
          rw [show irPrismSdf (ensureCcw vs) (.const (h : ℝ)) (.vec_x .var) (.vec_y .var)
              (.vec_z .var) = (irPolygonSdf (ensureCcw vs) (.vec_x .var) (.vec_y .var)).bind
              fun maxD => .ok (.max maxD (.sub (.abs (.vec_z .var)) (.const (h : ℝ))))
            from rfl] at hc
          rcases irPolygonSdf_cases (ensureCcw vs) (.vec_x .var) (.vec_y .var) with hpd | ⟨m, hpd⟩
          · rw [hpd] at hc
            simp only [except_bind_error, Except.error.injEq] at hc
            exact absurd hc (by decide)
          · rw [hpd] at hc
            simp only [except_bind_ok] at hc
            exact Except.noConfusion hc
        · rw [if_neg hcv] at hc
          simp only [except_bind_error, Except.error.injEq] at hc
          exact absurd hc (by decide)
      · intro hsi2
        exact absurd ((hasSelfIntersection_iff vs).mpr hsi2) hsi

/-- An ASCII character is not one of the beyond-ASCII digit-property
characters. -/
theorem pyDigitExtra_eq_false (c : Char) (h : c.toNat < 128) :
    pyDigitExtra c = false := by
  simp only [pyDigitExtra, decide_eq_false_iff_not]
  omega

/-- On ASCII characters the modelled `str.isdigit` coincides with the
ASCII digit test. -/
theorem pyIsDigit_ascii (c : Char) (h : c.toNat < 128) :
    pyIsDigit c = c.isDigit := by
  rw [pyIsDigit, pyDigitExtra_eq_false c h, Bool.or_false]

/-- `_skip_whitespace_and_comments` only drops characters: its result
is a sublist (in fact a suffix) of its input. -/
theorem skipWs_fst_sublist : ∀ (fuel : ℕ) (cs : List Char) (line col : ℕ),
    (skipWs fuel cs line col).1.Sublist cs := by
  intro fuel
  induction fuel with
  | zero => intro cs line col; exact List.Sublist.refl cs
  | succ fuel ih =>
    intro cs line col
    rcases cs with _ | ⟨c, rest⟩
    · exact List.Sublist.refl []
    · rw [skipWs]
      split_ifs with h1 h2 h3
      · exact (ih rest (line + 1) 1).trans (List.sublist_cons_self c rest)
      · exact (ih rest line (col + 1)).trans (List.sublist_cons_self c rest)
      · exact ((ih _ line _).trans (List.drop_sublist _ rest)).trans
          (List.sublist_cons_self c rest)
      · exact List.Sublist.refl _

/-- `_number`'s loop splits its input: lexeme plus remainder is the
input. -/
theorem takeNumber_append : ∀ (cs : List Char) (sd : Bool) (ds rest : List Char),
    takeNumber cs sd = (ds, rest) → ds ++ rest = cs := by
  intro cs
  induction cs with
  | nil =>
    intro sd ds rest h
    rw [takeNumber] at h
    injection h with h1 h2
    rw [← h1, ← h2]
    rfl
  | cons c cs' ih =>
    intro sd ds rest h
    rw [takeNumber] at h
    split_ifs at h with h1 h2
    · rcases htn : takeNumber cs' sd with ⟨ds1, r1⟩
      rw [htn] at h
      injection h with ha hb
      rw [← ha, ← hb, List.cons_append, ih sd ds1 r1 htn]
    · rcases htn : takeNumber cs' true with ⟨ds1, r1⟩
      rw [htn] at h
      injection h with ha hb
      rw [← ha, ← hb, List.cons_append, ih true ds1 r1 htn]
    · injection h with ha hb
      rw [← ha, ← hb]
      rfl

/-- `_ident`'s loop splits its input: lexeme plus remainder is the
input. -/
theorem takeIdent_append : ∀ (cs ds rest : List Char),
    takeIdent cs = (ds, rest) → ds ++ rest = cs := by
  intro cs
  induction cs with
  | nil =>
    intro ds rest h
    rw [takeIdent] at h
    injection h with h1 h2
    rw [← h1, ← h2]
    rfl
  | cons c cs' ih =>
    intro ds rest h
    rw [takeIdent] at h
    split_ifs at h with h1
    · rcases hti : takeIdent cs' with ⟨ds1, r1⟩
      rw [hti] at h
      injection h with ha hb
      rw [← ha, ← hb, List.cons_append, ih ds1 r1 hti]
    · injection h with ha hb
      rw [← ha, ← hb]
      rfl

/-- Under the entry guard of the number branch (an ASCII digit, or a
dot followed by an ASCII digit), the consumed lexeme contains an ASCII
digit. -/
theorem takeNumber_any_digit (c : Char) (rest : List Char)
    (h : c.isDigit = true ∨ (c = '.' ∧ ∃ r rest2, rest = r :: rest2 ∧ r.isDigit = true)) :
    (takeNumber (c :: rest) false).1.any Char.isDigit = true := by
  rcases h with hd | ⟨hdot, r, rest2, hre, hr⟩
  · rcases htn : takeNumber rest false with ⟨ds, r2⟩
    simp [takeNumber, pyIsDigit, hd, htn]
  · subst hdot
    subst hre
    have hdd : pyIsDigit ('.') = false := by decide
    have hdd2 : ('.' : Char).isDigit = false := by decide
    have hrr : pyIsDigit r = true := by simp [pyIsDigit, hr]
    rcases htn2 : takeNumber rest2 true with ⟨ds3, rr3⟩
    simp [takeNumber, hdd, hdd2, hr, hrr, htn2]

/-- A lexeme containing an ASCII digit and no beyond-ASCII
digit-property character always parses as a float. -/
theorem floatOfLex_isSome (cs : List Char) (h : cs.any Char.isDigit = true)
    (h2 : cs.any pyDigitExtra = false) :
    floatOfLex cs ≠ none := by
  rw [floatOfLex, h, h2]
  simp

/-- The `Invalid number` error site of `_number` is unreachable on
ASCII input: the branch is entered only on a digit or on a dot
followed by a digit, and the ASCII lexeme it consumes then always
parses.  (On non-ASCII input the site is reachable: a digit-property
character such as `²` enters the branch and fails `float`.) -/
theorem tokenizeAux_no_invalid : ∀ (fuel : ℕ) (cs : List Char) (line col : ℕ)
    (hascii : ∀ a ∈ cs, a.toNat < 128) (lex : String) (l c : ℕ),
    tokenizeAux fuel cs line col ≠ .error (.invalidNumber lex l c) := by
  intro fuel
  induction fuel with
  | zero =>
    intro cs line col hascii lex l c
    simp [tokenizeAux]
  | succ fuel ih =>
    intro cs line col hascii lex l c
    rw [tokenizeAux]
    rcases hskip : skipWs (cs.length + 1) cs line col with ⟨cs1, line1, col1⟩
    have hsub : cs1.Sublist cs := by
      have h0 := skipWs_fst_sublist (cs.length + 1) cs line col
      rw [hskip] at h0
      exact h0
    have hascii1 : ∀ a ∈ cs1, a.toNat < 128 := fun a ha => hascii a (hsub.subset ha)
    rcases cs1 with _ | ⟨ch, rest⟩
    · simp
    · simp only []
      split_ifs with hnum hid hlp hrp hcm
      · have hchA : ch.toNat < 128 := hascii1 ch (List.mem_cons_self ch rest)
        rw [pyIsDigit_ascii ch hchA] at hnum
        have hsplit : ch.isDigit = true ∨
            (ch = '.' ∧ ∃ r rest2, rest = r :: rest2 ∧ r.isDigit = true) := by
          by_cases hd : ch.isDigit = true
          · exact Or.inl hd
          · right
            simp only [hd, Bool.false_or, Bool.and_eq_true, decide_eq_true_eq] at hnum
            refine ⟨hnum.1, ?_⟩
            rcases rest with _ | ⟨r, rest2⟩
            · simp at hnum
            · refine ⟨r, rest2, rfl, ?_⟩
              have hrA : r.toNat < 128 :=
                hascii1 r (List.mem_cons_of_mem ch (List.mem_cons_self r rest2))
              have h2 : pyIsDigit r = true := by simpa using hnum.2
              rw [pyIsDigit_ascii r hrA] at h2
              exact h2
        have hany := takeNumber_any_digit ch rest hsplit
        rcases htn : takeNumber (ch :: rest) false with ⟨ds, rest2⟩
        rw [htn] at hany
        have happ : ds ++ rest2 = ch :: rest :=
          takeNumber_append (ch :: rest) false ds rest2 htn
        have hdsA : ∀ a ∈ ds, a.toNat < 128 := fun a ha => by
          refine hascii1 a ?_
          rw [← happ]
          exact List.mem_append_left _ ha
        have hrest2A : ∀ a ∈ rest2, a.toNat < 128 := fun a ha => by
          refine hascii1 a ?_
          rw [← happ]
          exact List.mem_append_right _ ha
        have hnoextra : ds.any pyDigitExtra = false := by
          rw [List.any_eq_false]
          intro a ha
          simp [pyDigitExtra_eq_false a (hdsA a ha)]
        have hfl := floatOfLex_isSome ds hany hnoextra
        rcases hfle : floatOfLex ds with _ | v
        · exact absurd hfle hfl
        · simp only []
          rcases hrec : tokenizeAux fuel rest2 line1 (col1 + ds.length) with e | toks
          · simp only [bind_error]
            intro hcon
            simp only [Except.error.injEq] at hcon
            exact ih rest2 line1 (col1 + ds.length) hrest2A lex l c (by rw [hrec, hcon])
          · simp
      · rcases hti : takeIdent (ch :: rest) with ⟨ds, rest2⟩
        have happ : ds ++ rest2 = ch :: rest := takeIdent_append (ch :: rest) ds rest2 hti
        have hrest2A : ∀ a ∈ rest2, a.toNat < 128 := fun a ha => by
          refine hascii1 a ?_
          rw [← happ]
          exact List.mem_append_right _ ha
        simp only []
        rcases hrec : tokenizeAux fuel rest2 line1 (col1 + ds.length) with e | toks
        · simp only [bind_error]
          intro hcon
          simp only [Except.error.injEq] at hcon
          exact ih rest2 line1 (col1 + ds.length) hrest2A lex l c (by rw [hrec, hcon])
        · simp
      · rcases hrec : tokenizeAux fuel rest line1 (col1 + 1) with e | toks
        · simp only [bind_error]
          intro hcon
          simp only [Except.error.injEq] at hcon
          exact ih rest line1 (col1 + 1)
            (fun a ha => hascii1 a (List.mem_cons_of_mem ch ha)) lex l c
            (by rw [hrec, hcon])
        · simp
      · rcases hrec : tokenizeAux fuel rest line1 (col1 + 1) with e | toks
        · simp only [bind_error]
          intro hcon
          simp only [Except.error.injEq] at hcon
          exact ih rest line1 (col1 + 1)
            (fun a ha => hascii1 a (List.mem_cons_of_mem ch ha)) lex l c
            (by rw [hrec, hcon])
        · simp
      · rcases hrec : tokenizeAux fuel rest line1 (col1 + 1) with e | toks
        · simp only [bind_error]
          intro hcon
          simp only [Except.error.injEq] at hcon
          exact ih rest line1 (col1 + 1)
            (fun a ha => hascii1 a (List.mem_cons_of_mem ch ha)) lex l c
            (by rw [hrec, hcon])
        · simp
      · simp

/-- C10 counterexample: the `Invalid number` error branch is NOT
unreachable for every input string.  On the input `"²"` — the
superscript-two character, which Python's `str.isdigit` accepts but
`float` rejects — `tokenize` enters the number branch, consumes the
lexeme `"²"`, fails to parse it, and raises exactly
`Invalid number ² at 1:1`. -/
theorem c10_invalid_number_reachable_cex :
    tokenize "²" = .error (.invalidNumber "²" 1 1) ∧
    (LexError.invalidNumber "²" 1 1).message = "Invalid number ² at 1:1" := by
  constructor
  · with_unfolding_all rfl
  · with_unfolding_all rfl

/-- C10 (amended): the lexer accepts a digit string with a bare
trailing dot as a single NUMBER token whose value is the integer part
(`"1."` gives value `1`), and for sources made of ASCII characters the
`Invalid number` lexer error is unreachable: the number branch is
entered only on a digit or on a dot followed by a digit, and the
lexeme it then consumes always parses as a float.  (For non-ASCII
sources the error is reachable — see the counterexample.) -/
theorem c10_lexer_trailing_dot :
    tokenize "1." = .ok [⟨"NUMBER", "1.", some 1, 1, 1⟩, ⟨"EOF", "", none, 1, 3⟩] ∧
    ∀ (src : String), (∀ ch ∈ src.data, ch.toNat < 128) →
      ∀ (lex : String) (l c : ℕ), tokenize src ≠ .error (.invalidNumber lex l c) := by
  constructor
  · with_unfolding_all rfl
  · intro src hascii lex l c
    exact tokenizeAux_no_invalid (src.length + 1) src.data 1 1 hascii lex l c

/-- C10 witness: the amended theorem applied at the ASCII source
`"1."`. -/
theorem c10_lexer_trailing_dot_witness :
    (∀ ch ∈ ("1.").data, ch.toNat < 128) ∧
    tokenize "1." ≠ .error (.invalidNumber "1." 1 1) :=
  ⟨by decide, c10_lexer_trailing_dot.2 "1." (by decide) "1." 1 1⟩

end GeomDSL
